import Mathlib

/-!
Shallow embedding of the `valve_maps` crate (Quake/Valve `.map` parser and
brush-to-mesh generator) and of the `fps_controller::ultrakill` character
controller from the `bevy_prime31` repository.

Modelling conventions:
* `f32` scalars are modelled as real numbers (`ℝ`) in the geometry and
  controller code, and as rationals (`ℚ`) in the text parser, where every
  operation is exact.
* `Vec3`/`Vec2` are bevy's vector types; `normalize`, `length`, `atan2`,
  `cos` use their exact real counterparts.
* Fallible Rust code returns `Option`.
-/

namespace VM

/-- Model of bevy's `Vec3` with real components. -/
structure Vec3 where
  x : ℝ
  y : ℝ
  z : ℝ

namespace Vec3

noncomputable instance : DecidableEq Vec3 := fun a b =>
  decidable_of_iff (a.x = b.x ∧ a.y = b.y ∧ a.z = b.z)
    (by cases a; cases b; simp)

noncomputable instance : Add Vec3 := ⟨fun a b => ⟨a.x + b.x, a.y + b.y, a.z + b.z⟩⟩

noncomputable instance : Sub Vec3 := ⟨fun a b => ⟨a.x - b.x, a.y - b.y, a.z - b.z⟩⟩

noncomputable instance : Neg Vec3 := ⟨fun a => ⟨-a.x, -a.y, -a.z⟩⟩

instance : Zero Vec3 := ⟨⟨0, 0, 0⟩⟩

/-- Multiplication of a vector by an `f32` scalar (`v * s` in Rust). -/
noncomputable instance : HMul Vec3 ℝ Vec3 := ⟨fun v s => ⟨v.x * s, v.y * s, v.z * s⟩⟩

/-- Division of a vector by an `f32` scalar (`v / s` in Rust). -/
noncomputable instance : HDiv Vec3 ℝ Vec3 := ⟨fun v s => ⟨v.x / s, v.y / s, v.z / s⟩⟩

/-- `Vec3::dot`. -/
def dot (a b : Vec3) : ℝ := a.x * b.x + a.y * b.y + a.z * b.z

/-- `Vec3::cross`. -/
def cross (a b : Vec3) : Vec3 :=
  ⟨a.y * b.z - a.z * b.y, a.z * b.x - a.x * b.z, a.x * b.y - a.y * b.x⟩

/-- `Vec3::length`. -/
noncomputable def length (v : Vec3) : ℝ := Real.sqrt (v.dot v)

/-- `Vec3::normalize` (exact model: `v / ‖v‖`). -/
noncomputable def normalize (v : Vec3) : Vec3 := v / v.length

/-- `Vec3::normalize_or_zero`. -/
noncomputable def normalize_or_zero (v : Vec3) : Vec3 :=
  if v.length = 0 then 0 else v / v.length

/-- `Vec3::lerp(self, rhs, s) = self + (rhs - self) * s`. -/
noncomputable def lerp (a b : Vec3) (s : ℝ) : Vec3 := a + (b - a) * s

/-- `Vec3::clamp_length_max`. -/
noncomputable def clamp_length_max (v : Vec3) (m : ℝ) : Vec3 :=
  if m < v.length then v * (m / v.length) else v

end Vec3

/-- Model of bevy's `Vec2` with real components. -/
structure Vec2 where
  x : ℝ
  y : ℝ

namespace Vec2

noncomputable instance : Add Vec2 := ⟨fun a b => ⟨a.x + b.x, a.y + b.y⟩⟩

/-- Componentwise `Vec2` division, as used by `uv /= texture.size()`. -/
noncomputable instance : Div Vec2 := ⟨fun a b => ⟨a.x / b.x, a.y / b.y⟩⟩

end Vec2

/-- Model of `f32::signum` (for non-NaN, non-negative-zero inputs). -/
noncomputable def fsignum (x : ℝ) : ℝ := if x < 0 then -1 else 1

/-- Model of `f32::atan2` (`y.atan2(x)`), defined piecewise from `arctan`. -/
noncomputable def atan2 (y x : ℝ) : ℝ :=
  if 0 < x then Real.arctan (y / x)
  else if x < 0 then
    (if 0 ≤ y then Real.arctan (y / x) + Real.pi else Real.arctan (y / x) - Real.pi)
  else
    (if 0 < y then Real.pi / 2 else if y < 0 then -(Real.pi / 2) else 0)

/-- The entity key/value pairs, `formats::shared::Fields` (a `HashMap`
modelled as an association list where each key occurs at most once). -/
structure Fields where
  entries : List (String × String)
deriving DecidableEq

/-- `Fields::get_property`. -/
def Fields.get_property (fs : Fields) (name : String) : Option String :=
  (fs.entries.find? (fun kv => kv.1 == name)).map (·.2)

namespace generate

/-- `generate::TextureSize`. -/
structure TextureSize where
  width : ℕ
  height : ℕ

/-- `TextureSize::size`, the size as a `Vec2`. -/
def TextureSize.size (t : TextureSize) : Vec2 := ⟨(t.width : ℝ), (t.height : ℝ)⟩

/-- `generate::TextureInfo` (a `HashMap<String, TextureSize>` modelled as an
association list with unique keys). -/
structure TextureInfo where
  entries : List (String × TextureSize)

/-- `HashMap::get` on a `TextureInfo`. -/
def TextureInfo.get (t : TextureInfo) (name : String) : Option TextureSize :=
  (t.entries.find? (fun kv => kv.1 == name)).map (·.2)

/-- `formats::valve::Axis` with the real-valued texture axis normal and
offset (the generator-side view of the parsed plane). -/
structure Axis where
  normal : Vec3
  offset : ℝ

/-- `formats::valve::Axes`. -/
structure Axes where
  u : Axis
  v : Axis

/-- `formats::valve::Scale`. -/
structure Scale where
  u : ℝ
  v : ℝ

/-- `formats::valve::TextureAlignment`. -/
structure TextureAlignment where
  axes : Axes
  rotation : ℝ
  scale : Scale

/-- `formats::shared::Texture`. -/
structure Texture where
  name : String
  alignment : TextureAlignment

/-- `formats::shared::Plane`: three winding points and a texture. -/
structure Plane where
  points : Fin 3 → Vec3
  texture : Texture

/-- `Plane::v0`. -/
def Plane.v0 (p : Plane) : Vec3 := p.points 0

/-- `Plane::v1`. -/
def Plane.v1 (p : Plane) : Vec3 := p.points 1

/-- `Plane::v2`. -/
def Plane.v2 (p : Plane) : Vec3 := p.points 2

/-- `Plane::normal`: `v0v2.cross(v0v1).normalize()` where
`v0v1 = v1 - v0` and `v0v2 = v2 - v0`. -/
noncomputable def Plane.normal (p : Plane) : Vec3 :=
  ((p.v2 - p.v0).cross (p.v1 - p.v0)).normalize

/-- `Plane::dist`: `normal.dot(points[0])`. -/
noncomputable def Plane.dist (p : Plane) : ℝ := p.normal.dot p.v0

/-- `formats::shared::Brush`. -/
structure Brush where
  planes : List Plane

/-- `formats::shared::MapEntity` (generator-side view). -/
structure MapEntity where
  fields : Fields
  brushes : List Brush

/-- `generate::CMP_EPSILON`. -/
def CMP_EPSILON : ℝ := 0.001

/-- `generate::intersect_brush_planes`. -/
noncomputable def intersect_brush_planes (p0 p1 p2 : Plane) : Option Vec3 :=
  let n0 := p0.normal
  let n1 := p1.normal
  let n2 := p2.normal
  let denom := (n0.cross n1).dot n2
  if denom < CMP_EPSILON then none
  else some (((n1.cross n2) * p0.dist + (n2.cross n0) * p1.dist +
      (n0.cross n1) * p2.dist) / denom)

/-- `generate::vertex_in_hull`: the early-return loop as a `List.all`. -/
noncomputable def vertex_in_hull (vertex : Vec3) (hull : List Plane) : Bool :=
  hull.all fun brush_plane =>
    let proj := brush_plane.normal.dot vertex
    !(decide (proj > brush_plane.dist) && decide (proj - brush_plane.dist > CMP_EPSILON))

/-- `generate::ONE_DEGREE` (the code's literal constant `0.017_453_3`). -/
def ONE_DEGREE : ℝ := 0.0174533

/-- Model of `str::parse::<f32>` restricted to finite decimal/scientific
literals (the `inf`/`NaN` spellings are not modelled); the accepted
grammar is sign, digits with optional fraction, optional exponent, and
the whole string must be consumed. -/
def parse_f32 (s : String) : Option ℚ :=
  let chars := s.toList
  let (sgn, rest) :=
    match chars with
    | '+' :: r => ((1 : ℚ), r)
    | '-' :: r => ((-1 : ℚ), r)
    | r => ((1 : ℚ), r)
  let intDigits := rest.takeWhile Char.isDigit
  let afterInt := rest.drop intDigits.length
  let (fracDigits, afterFrac) :=
    match afterInt with
    | '.' :: r => (r.takeWhile Char.isDigit, (r.takeWhile Char.isDigit).length + 1)
    | _ => ([], 0)
  let afterFrac := afterInt.drop afterFrac
  if intDigits.isEmpty && fracDigits.isEmpty then none
  else
    let mant : ℚ :=
      (intDigits.foldl (fun acc c => acc * 10 + (((c.toNat - '0'.toNat : ℕ)) : ℚ)) (0 : ℚ)) +
      (fracDigits.foldl (fun acc c => acc * 10 + (((c.toNat - '0'.toNat : ℕ)) : ℚ)) (0 : ℚ)) /
        (10 : ℚ) ^ fracDigits.length
    match afterFrac with
    | [] => some (sgn * mant)
    | e :: r =>
      if e = 'e' ∨ e = 'E' then
        let (esgn, er) :=
          match r with
          | '+' :: r' => ((1 : ℤ), r')
          | '-' :: r' => ((-1 : ℤ), r')
          | r' => ((1 : ℤ), r')
        let eDigits := er.takeWhile Char.isDigit
        if eDigits.isEmpty ∨ ¬(er.drop eDigits.length).isEmpty then none
        else
          let ex : ℤ := esgn * (eDigits.foldl (fun acc c => acc * 10 + (((c.toNat - '0'.toNat : ℕ)) : ℤ)) (0 : ℤ))
          some (sgn * mant * (10 : ℚ) ^ ex)
      else none

/-- `generate::phong_normal`. -/
noncomputable def phong_normal (p0 p1 p2 : Plane) (phong_angle : Option String) : Vec3 :=
  match phong_angle with
  | some s =>
    match parse_f32 s with
    | some a =>
      let threshold := Real.cos (((a : ℝ) + 0.01) * ONE_DEGREE)
      let normal := p0.normal
      let normal := if p0.normal.dot p1.normal > threshold then normal + p1.normal else normal
      let normal := if p0.normal.dot p2.normal > threshold then normal + p2.normal else normal
      normal.normalize
    | none => (p0.normal + p1.normal + p2.normal).normalize
  | none => (p0.normal + p1.normal + p2.normal).normalize

/-- `generate::vertex_normal`. -/
noncomputable def vertex_normal (entity : MapEntity) (p0 p1 p2 : Plane) : Vec3 :=
  if entity.fields.get_property "_phong" = some "1" then
    phong_normal p0 p1 p2 (entity.fields.get_property "_phong_angle")
  else p0.normal

/-- `generate::valve_uv`. -/
noncomputable def valve_uv (vertex : Vec3) (brush_plane : Plane) (texture : TextureSize) : Vec2 :=
  let u_axis := brush_plane.texture.alignment.axes.u.normal
  let v_axis := brush_plane.texture.alignment.axes.v.normal
  let u_offset := brush_plane.texture.alignment.axes.u.offset
  let v_offset := brush_plane.texture.alignment.axes.v.offset
  let uv : Vec2 := ⟨u_axis.dot vertex, v_axis.dot vertex⟩
  let uv := uv / texture.size
  let uv := uv / (⟨brush_plane.texture.alignment.scale.u, brush_plane.texture.alignment.scale.v⟩ : Vec2)
  let uv := uv + (⟨u_offset, v_offset⟩ : Vec2) / texture.size
  uv

/-- `generate::valve_tangent`. -/
noncomputable def valve_tangent (brush_plane : Plane) : Vec3 × ℝ :=
  let u_axis := brush_plane.texture.alignment.axes.u.normal
  let v_axis := brush_plane.texture.alignment.axes.v.normal
  let v_sign := -(fsignum (((brush_plane.normal.cross u_axis)).dot v_axis))
  (u_axis, v_sign)

/-- `generate::Vertex`. -/
structure Vertex where
  vertex : Vec3
  normal : Vec3
  tangent : Vec3 × ℝ
  uv : Option Vec2

/-- `generate::build_plane_vertex`. -/
noncomputable def build_plane_vertex (texture_info : Option TextureSize)
    (entity : MapEntity) (planes : List Plane) (plane p1 p2 : Plane) : Option Vertex :=
  match intersect_brush_planes plane p1 p2 with
  | some vertex =>
    if vertex_in_hull vertex planes then
      let normal := vertex_normal entity plane p1 p2
      let tangent := valve_tangent plane
      let uv :=
        match texture_info with
        | some texture => some (valve_uv vertex plane texture)
        | none => none
      some ⟨vertex, normal, tangent, uv⟩
    else none
  | none => none

/-- `convert::quake_direction_to_bevy_direction`: the quaternion
`Quat::from_axis_angle((-1,0,0), 90°)` acts on vectors as
`(x, y, z) ↦ (x, z, -y)`. -/
def quake_direction_to_bevy_direction (dir : Vec3) : Vec3 := ⟨dir.x, dir.z, -dir.y⟩

/-- `convert::quake_point_to_bevy_point`. -/
noncomputable def quake_point_to_bevy_point (point : Vec3) (inverse_scale_factor : ℝ) : Vec3 :=
  quake_direction_to_bevy_direction point / inverse_scale_factor

namespace brush_plane

/-- `brush_plane::PlaneGeometry`. -/
structure PlaneGeometry where
  vertices : List Vertex
  indices : List ℕ
  texture : Option String

/-- `PlaneGeometry::new`: converts every vertex to bevy space. -/
noncomputable def PlaneGeometry.new (vertices : List Vertex) (indices : List ℕ)
    (texture : Option String) : PlaneGeometry :=
  { vertices := vertices.map fun v =>
      { v with vertex := quake_point_to_bevy_point v.vertex 16
               normal := quake_direction_to_bevy_direction v.normal }
    indices := indices
    texture := texture }

/-- The `plane_vertices` stage of `brush_plane::build`: every ordered pair of
planes of the brush is intersected with the face's plane. -/
noncomputable def plane_vertices (texture_info : Option TextureSize) (entity : MapEntity)
    (planes : List Plane) (plane : Plane) : List Vertex :=
  planes.flatMap fun p1 => planes.filterMap fun p2 =>
    build_plane_vertex texture_info entity planes plane p1 p2

/-- The `unique_vertices` stage of `brush_plane::build`: position `i` is kept
only when no later entry has the same position; with `_phong = "1"` the kept
vertex is folded over the later entries (replacing its normal on a position
match) and its normal re-normalized. -/
noncomputable def unique_vertices (entity : MapEntity) : List Vertex → List Vertex
  | [] => []
  | v :: rest =>
    if rest.any (fun comp => decide (comp.vertex = v.vertex)) then
      unique_vertices entity rest
    else if entity.fields.get_property "_phong" = some "1" then
      let folded := rest.foldl
        (fun acc next => if next.vertex = acc.vertex then { acc with normal := next.normal } else acc) v
      { folded with normal := folded.normal.normalize } :: unique_vertices entity rest
    else v :: unique_vertices entity rest

/-- The face centroid of `brush_plane::build`. -/
noncomputable def face_center (unique : List Vertex) : Vec3 :=
  (unique.foldl (fun acc next => acc + next.vertex) (⟨0, 0, 0⟩ : Vec3)) /
    ((max unique.length 1 : ℕ) : ℝ)

/-- The `local_vertices` stage: every vertex translated relative to the centroid. -/
noncomputable def local_vertices (unique : List Vertex) (center : Vec3) : List Vertex :=
  unique.map fun v => { v with vertex := v.vertex - center }

/-- The winding angle used by the sort: `atan2(p · v_axis, p · u_axis)`. -/
noncomputable def wind_angle (u_axis v_axis vert : Vec3) : ℝ :=
  atan2 (vert.dot v_axis) (vert.dot u_axis)

/-- The comparator of the winding sort: `a` may precede `b` exactly when
`atan2` of `b` is at most `atan2` of `a` (descending angles); this is
`rhs_angle.partial_cmp(&lhs_angle).unwrap_or(Equal) ≠ Greater`. -/
noncomputable def wind_le (u_axis v_axis : Vec3) (a b : Vertex) : Bool :=
  decide (wind_angle u_axis v_axis b.vertex ≤ wind_angle u_axis v_axis a.vertex)

/-- The `wound_vertices` stage: the stable sort (`slice::sort_by`) modelled
by the stable `List.mergeSort` under the same total comparator. -/
noncomputable def wound_vertices (u_axis v_axis : Vec3) (locals : List Vertex) : List Vertex :=
  locals.mergeSort (wind_le u_axis v_axis)

/-- The `world_vertices` stage: the centroid is added back. -/
noncomputable def world_vertices (wound : List Vertex) (center : Vec3) : List Vertex :=
  wound.map fun v => { v with vertex := v.vertex + center }

/-- The triangle-fan index buffer of `brush_plane::build` (already reversed). -/
def face_indices (n : ℕ) : List ℕ :=
  (if n < 3 then [] else (List.range (n - 2)).flatMap fun i => [0, i + 1, i + 2]).reverse

/-- `brush_plane::build`. -/
noncomputable def build (textures : TextureInfo) (entity : MapEntity)
    (planes : List Plane) (plane : Plane) : PlaneGeometry :=
  let texture_info := textures.get plane.texture.name
  let pv := plane_vertices texture_info entity planes plane
  let unique := unique_vertices entity pv
  let center := face_center unique
  let locals := local_vertices unique center
  let u_axis := (plane.points 1 - plane.points 0).normalize
  let v_axis := plane.normal.cross u_axis
  let wound := wound_vertices u_axis v_axis locals
  let world := world_vertices wound center
  let indices := face_indices world.length
  let texture :=
    match texture_info with
    | some _ => some plane.texture.name
    | none => none
  PlaneGeometry.new world indices texture

end brush_plane

end generate

/-! ### The `.map` text parser (`parse::core`, `parse::common`, `parse::formats`)

The nom combinators used by the crate are embedded as functions
`List Char → Option (α × List Char)` over exact rationals; `Err(..)` is
modelled as `none` (the crate's claims only distinguish success from
failure, not error details). -/

/-- The type of an embedded nom parser over the crate's `Input = &str`. -/
def Parser (α : Type) : Type := List Char → Option (α × List Char)

/-- nom `combinator::map`. -/
def pmap (f : α → β) (p : Parser α) : Parser β := fun s =>
  match p s with
  | some (a, s1) => some (f a, s1)
  | none => none

/-- nom `sequence::pair`. -/
def ppair (p : Parser α) (q : Parser β) : Parser (α × β) := fun s =>
  match p s with
  | none => none
  | some (a, s1) =>
    match q s1 with
    | none => none
    | some (b, s2) => some ((a, b), s2)

/-- nom `sequence::preceded`. -/
def ppreceded (p : Parser α) (q : Parser β) : Parser β := fun s =>
  match p s with
  | none => none
  | some (_, s1) => q s1

/-- nom `sequence::terminated`. -/
def pterminated (p : Parser α) (q : Parser β) : Parser α := fun s =>
  match p s with
  | none => none
  | some (a, s1) =>
    match q s1 with
    | none => none
    | some (_, s2) => some (a, s2)

/-- nom `sequence::delimited`. -/
def pdelimited (l : Parser α) (p : Parser β) (r : Parser γ) : Parser β :=
  ppreceded l (pterminated p r)

/-- nom `combinator::opt`. -/
def popt (p : Parser α) : Parser (Option α) := fun s =>
  match p s with
  | some (a, s1) => some (some a, s1)
  | none => some (none, s)

/-- nom `branch::alt` with two alternatives. -/
def palt (p q : Parser α) : Parser α := fun s =>
  match p s with
  | some r => some r
  | none => q s

/-- nom `character::complete::char`. -/
def pchar (c : Char) : Parser Char := fun s =>
  match s with
  | c' :: rest => if c' = c then some (c, rest) else none
  | [] => none

/-- nom `bytes::complete::tag`. -/
def ptag (t : List Char) : Parser (List Char) := fun s =>
  if s.take t.length = t then some (t, s.drop t.length) else none

/-- nom `bytes::complete::take_till` (always succeeds, possibly empty). -/
def ptake_till (f : Char → Bool) : Parser (List Char) := fun s =>
  let taken := s.takeWhile (fun c => !f c)
  some (taken, s.drop taken.length)

/-- The characters accepted by nom `multispace1`. -/
def is_nom_space (c : Char) : Bool := c == ' ' || c == '\t' || c == '\r' || c == '\n'

/-- nom `character::complete::multispace1`. -/
def pmultispace1 : Parser (List Char) := fun s =>
  let t := s.takeWhile is_nom_space
  if t.isEmpty then none else some (t, s.drop t.length)

/-- nom `character::complete::line_ending`. -/
def pline_ending : Parser (List Char) := fun s =>
  match s with
  | '\n' :: rest => some (['\n'], rest)
  | '\r' :: '\n' :: rest => some (['\r', '\n'], rest)
  | _ => none

/-- nom `character::complete::not_line_ending`: takes until `\r`/`\n`; a
bare `\r` not followed by `\n` is an error. -/
def pnot_line_ending : Parser (List Char) := fun s =>
  let t := s.takeWhile (fun c => !(c == '\r' || c == '\n'))
  let rest := s.drop t.length
  match rest with
  | '\r' :: r2 =>
    match r2 with
    | '\n' :: _ => some (t, rest)
    | _ => none
  | _ => some (t, rest)

/-- nom `multi::many0` (with nom's zero-length-consumption error), fuelled
by the input length: every repeated parser of this crate consumes at least
one character on success, so the fuel never runs out. -/
def many0_aux (p : Parser α) : ℕ → Parser (List α)
  | 0 => fun _ => none
  | n + 1 => fun s =>
    match p s with
    | none => some ([], s)
    | some (a, s1) =>
      if s1.length = s.length then none
      else
        match many0_aux p n s1 with
        | some (l, s2) => some (a :: l, s2)
        | none => none

/-- nom `multi::many0`. -/
def many0 (p : Parser α) : Parser (List α) := fun s => many0_aux p (s.length + 1) s

/-- nom `multi::many1`. -/
def many1 (p : Parser α) : Parser (List α) := fun s =>
  match p s with
  | none => none
  | some (a, s1) =>
    match many0 p s1 with
    | some (l, s2) => some (a :: l, s2)
    | none => none

/-- nom `multi::fold_many0`, as a left fold over `many0`. -/
def fold_many0 (p : Parser α) (init : β) (f : β → α → β) : Parser β :=
  pmap (fun l => l.foldl f init) (many0 p)

/-- nom `combinator::recognize`. -/
def precognize (p : Parser α) : Parser (List Char) := fun s =>
  match p s with
  | none => none
  | some (_, s1) => some (s.take (s.length - s1.length), s1)

/-- nom `combinator::all_consuming`. -/
def all_consuming (p : Parser α) : Parser α := fun s =>
  match p s with
  | some (a, rest) => if rest.isEmpty then some (a, rest) else none
  | none => none

/-- `formats::shared::comment`: `preceded(tag("//"), not_line_ending)`. -/
def comment : Parser (List Char) := ppreceded (ptag ['/', '/']) pnot_line_ending

/-- `formats::shared::separator`: whitespace or line comments, zero or more
(the `iterator`/`finish` pair always succeeds). -/
def separator : Parser (List Char) :=
  precognize (many0 (palt pmultispace1 (pterminated comment pline_ending)))

/-- `formats::shared::sep_terminated`. -/
def sep_terminated (p : Parser α) : Parser α := pterminated p separator

/-- `formats::shared::maybe_sep_terminated`. -/
def maybe_sep_terminated (p : Parser α) : Parser α := pterminated p (popt separator)

/-- The scanning loop of `common::quoted_string`: stops at the first
unescaped `"`, a backslash escapes the next character. -/
def quoted_scan : List Char → Bool → Option (List Char × List Char)
  | [], _ => none
  | '"' :: rest, false => some ([], rest)
  | '\\' :: rest, _ =>
    match quoted_scan rest true with
    | some (c, after) => some ('\\' :: c, after)
    | none => none
  | c :: rest, _ =>
    match quoted_scan rest false with
    | some (cs, after) => some (c :: cs, after)
    | none => none

/-- `common::quoted_string`. -/
def quoted_string : Parser String := fun s =>
  match s with
  | '"' :: rest =>
    match quoted_scan rest false with
    | some (content, after) => some (String.mk content, after)
    | none => none
  | _ => none

/-- nom `character::complete::digit1`. -/
def digit1 : Parser (List Char) := fun s =>
  let t := s.takeWhile Char.isDigit
  if t.isEmpty then none else some (t, s.drop t.length)

/-- The mantissa alternation of nom's `recognize_float`:
`digit1 ('.' digit1?)? | '.' digit1`. -/
def float_after_sign : Parser Unit := fun s =>
  match digit1 s with
  | some (_, s1) =>
    (match s1 with
     | '.' :: r =>
       (match digit1 r with
        | some (_, r2) => some ((), r2)
        | none => some ((), r))
     | _ => some ((), s1))
  | none =>
    match s with
    | '.' :: r =>
      (match digit1 r with
       | some (_, r2) => some ((), r2)
       | none => none)
    | _ => none

/-- The optional exponent of nom's `recognize_float`; the digits after the
`e` are under `cut`, so their absence fails the whole float. -/
def float_exponent : Parser Unit := fun s =>
  match s with
  | e :: r =>
    if e = 'e' ∨ e = 'E' then
      let r1 :=
        match r with
        | '+' :: r' => r'
        | '-' :: r' => r'
        | r' => r'
      match digit1 r1 with
      | some (_, r2) => some ((), r2)
      | none => none
    else some ((), s)
  | [] => some ((), [])

/-- nom's `recognize_float`. -/
def recognize_float : Parser (List Char) := fun s =>
  let s1 :=
    match s with
    | '+' :: r => r
    | '-' :: r => r
    | r => r
  match float_after_sign s1 with
  | none => none
  | some (_, s2) =>
    match float_exponent s2 with
    | none => none
    | some (_, s3) => some (s.take (s.length - s3.length), s3)

/-- nom `number::complete::float`: the recognized literal converted to an
exact rational (modelling `str::parse::<f32>` on the recognized slice). -/
def pfloat : Parser ℚ := fun s =>
  match recognize_float s with
  | none => none
  | some (chars, rest) =>
    match generate.parse_f32 (String.mk chars) with
    | some q => some (q, rest)
    | none => none

namespace formats

/-- `formats::shared::Vector3` (parser side, exact rationals). -/
structure Vector3 where
  x : ℚ
  y : ℚ
  z : ℚ
deriving DecidableEq

/-- `Vector3::parse`: `x = sep_terminated(float), y = sep_terminated(float),
z = float` (also the grammar of the bevy `Vec3` impl in `valve.rs`). -/
def Vector3.parse : Parser Vector3 :=
  pmap (fun r => ⟨r.1, r.2.1, r.2.2⟩)
    (ppair (sep_terminated pfloat) (ppair (sep_terminated pfloat) pfloat))

/-- `formats::valve::Vec2` (parser side). -/
structure Vec2 where
  x : ℚ
  y : ℚ
deriving DecidableEq

/-- `Vec2::parse`. -/
def Vec2.parse : Parser Vec2 :=
  pmap (fun r => ⟨r.1, r.2⟩) (ppair (sep_terminated pfloat) pfloat)

/-- `formats::valve::Axis`. -/
structure Axis where
  normal : Vector3
  offset : ℚ
deriving DecidableEq

/-- `Axis::parse`: a bracketed axis normal and offset. -/
def Axis.parse : Parser Axis :=
  pdelimited (ppair (pchar '[') (popt separator))
    (pmap (fun r => ⟨r.1, r.2⟩) (ppair (sep_terminated Vector3.parse) pfloat))
    (ppair (popt separator) (pchar ']'))

/-- `formats::valve::Axes`. -/
structure Axes where
  u : Axis
  v : Axis
deriving DecidableEq

/-- `Axes::parse`. -/
def Axes.parse : Parser Axes :=
  pmap (fun r => ⟨r.1, r.2⟩) (ppair (maybe_sep_terminated Axis.parse) Axis.parse)

/-- `formats::valve::Scale`. -/
structure Scale where
  u : ℚ
  v : ℚ
deriving DecidableEq

/-- `Scale::parse`, via `Vec2::parse`. -/
def Scale.parse : Parser Scale :=
  pmap (fun vec => ⟨vec.x, vec.y⟩) Vec2.parse

/-- `formats::valve::TextureAlignment`. -/
structure TextureAlignment where
  axes : Axes
  rotation : ℚ
  scale : Scale
deriving DecidableEq

/-- `TextureAlignment::parse`. -/
def TextureAlignment.parse : Parser TextureAlignment :=
  pmap (fun r => ⟨r.1, r.2.1, r.2.2⟩)
    (ppair (maybe_sep_terminated Axes.parse)
      (ppair (sep_terminated pfloat) Scale.parse))

/-- `formats::shared::Texture` (parser side). -/
structure Texture where
  name : String
  alignment : TextureAlignment
deriving DecidableEq

/-- `Texture::parse`: the name is everything up to the next whitespace. -/
def Texture.parse : Parser Texture :=
  pmap (fun r => ⟨String.mk r.1, r.2⟩)
    (ppair (sep_terminated (ptake_till Char.isWhitespace)) TextureAlignment.parse)

/-- `formats::shared::Plane` (parser side): three points and a texture. -/
structure Plane where
  points : Vector3 × Vector3 × Vector3
  texture : Texture
deriving DecidableEq

/-- One parenthesized point group of `Plane::parse`. -/
def point_group : Parser Vector3 :=
  maybe_sep_terminated
    (pdelimited (ppair (pchar '(') (popt separator)) Vector3.parse
      (ppair (popt separator) (pchar ')')))

/-- `common::many_fixed` at capacity 3: the `ArrayVec` collects exactly the
capacity and `into_inner` fails when fewer elements were parsed. -/
def many_fixed3 (p : Parser α) : Parser (α × α × α) := fun s =>
  match p s with
  | none => none
  | some (a, s1) =>
    match p s1 with
    | none => none
    | some (b, s2) =>
      match p s2 with
      | none => none
      | some (c, s3) => some ((a, b, c), s3)

/-- `Plane::parse`. -/
def Plane.parse : Parser Plane :=
  pmap (fun r => ⟨r.1, r.2⟩) (ppair (many_fixed3 point_group) Texture.parse)

/-- `formats::shared::Brush` (parser side). -/
structure Brush where
  planes : List Plane
deriving DecidableEq

/-- `Brush::parse`. -/
def Brush.parse : Parser Brush :=
  pmap Brush.mk
    (pdelimited (ppair (pchar '{') (popt separator))
      (many0 (maybe_sep_terminated Plane.parse))
      (ppair (popt separator) (pchar '}')))

/-- `HashMap::insert` on the association-list model of `Fields`. -/
def fields_insert (m : List (String × String)) (k v : String) : List (String × String) :=
  if m.any (fun kv => kv.1 == k) then
    m.map (fun kv => if kv.1 == k then (k, v) else kv)
  else m ++ [(k, v)]

/-- The `Parse` impl for `Fields`: `fold_many0` of quoted key/value pairs
inserted into the map. -/
def parse_fields : Parser Fields :=
  pmap Fields.mk
    (fold_many0
      (maybe_sep_terminated (ppair (maybe_sep_terminated quoted_string) quoted_string))
      [] (fun m kv => fields_insert m kv.1 kv.2))

/-- `formats::shared::MapEntity` (parser side). -/
structure MapEntity where
  fields : Fields
  brushes : List Brush
deriving DecidableEq

/-- `MapEntity::parse`: brace-delimited fields then brushes. -/
def MapEntity.parse : Parser MapEntity :=
  pdelimited (ppair (pchar '{') (popt separator))
    (pmap (fun r => ⟨r.1, r.2⟩)
      (ppair (maybe_sep_terminated parse_fields) (many0 (maybe_sep_terminated Brush.parse))))
    (pchar '}')

/-- `formats::Map`. -/
structure Map where
  entities : List MapEntity
deriving DecidableEq

/-- `Map::parse`: optional leading separator, then at least one entity. -/
def Map.parse : Parser Map :=
  ppreceded (popt separator)
    (pmap Map.mk (many1 (maybe_sep_terminated MapEntity.parse)))

end formats

/-- The top-level `valve_maps::parse` convenience function:
`all_consuming(Map::parse)`, keeping only the map. -/
def parse (input : List Char) : Option formats.Map :=
  match all_consuming formats.Map.parse input with
  | some (m, _) => some m
  | none => none

namespace ultrakill

/-- `utils::math::move_towards`. -/
noncomputable def move_towards (current target max_delta : ℝ) : ℝ :=
  if |target - current| ≤ max_delta then target
  else current + fsignum (target - current) * max_delta

/-- `f32::clamp`. -/
noncomputable def fclamp (x lo hi : ℝ) : ℝ := min (max x lo) hi

/-- `input::InputState`. -/
structure InputState where
  pressed : Bool
  down : Bool
  released : Bool

/-- `input::FpsControllerInput` (the fields read by the Ultrakill controller). -/
structure FpsControllerInput where
  jump : InputState
  slide : InputState
  dash : InputState
  pitch : ℝ
  yaw : ℝ
  tilt : ℝ
  movement : Vec3
  movement_dir : Vec3
  dash_slide_dir : Vec3

/-- `ultrakill::components::FpsController` (tuning parameters). -/
structure FpsController where
  radius : ℝ
  gravity : ℝ
  walk_speed : ℝ
  slide_speed : ℝ
  dash_speed : ℝ
  jump_speed : ℝ
  jump_down_speed : ℝ
  jump_time : ℝ
  min_jump_duration : ℝ
  jump_stop_force : ℝ
  slide_jump_speed : ℝ
  dash_jump_speed : ℝ
  wall_jump_speed : ℝ
  crouch_speed : ℝ
  uncrouch_speed : ℝ
  jump_buffer_duration : ℝ
  coyote_timer_duration : ℝ
  air_speed_cap : ℝ
  air_acceleration : ℝ
  max_air_speed : ℝ
  acceleration : ℝ
  ground_slam_speed : ℝ
  max_fall_velocity : ℝ
  friction : ℝ
  traction_normal_cutoff : ℝ
  friction_speed_cutoff : ℝ
  height : ℝ
  upright_height : ℝ
  crouch_height : ℝ
  stop_speed : ℝ
  sensitivity : ℝ
  enable_input : Bool
  step_offset : ℝ

/-- `ultrakill::components::CooldownTimer`. -/
structure CooldownTimer where
  elapsed : ℝ
  duration : ℝ
  finished : Bool
  finished_this_tick : Bool

namespace CooldownTimer

/-- `CooldownTimer::new`. -/
def new (duration : ℝ) : CooldownTimer :=
  { elapsed := 0, duration := duration, finished := false, finished_this_tick := false }

/-- `CooldownTimer::is_complete`. -/
noncomputable def is_complete (t : CooldownTimer) : Bool := decide (t.elapsed > t.duration)

/-- `CooldownTimer::tick`. -/
noncomputable def tick (t : CooldownTimer) (dt : ℝ) : CooldownTimer :=
  if t.finished then { t with finished_this_tick := false }
  else
    let t := { t with elapsed := t.elapsed + dt }
    if t.is_complete then { t with finished := true, finished_this_tick := true }
    else t

/-- `CooldownTimer::reset`. -/
def reset (t : CooldownTimer) : CooldownTimer := { t with elapsed := 0, finished := false }

/-- `CooldownTimer::reset_with_duration`. -/
def reset_with_duration (t : CooldownTimer) (duration : ℝ) : CooldownTimer :=
  { t.reset with duration := duration }

end CooldownTimer

/-- `ultrakill::components::FpsControllerState`; `current_wall_jumps` is a
`u8`, modelled as a natural number that is incremented modulo `2 ^ 8`. -/
structure FpsControllerState where
  jumping : Bool
  sliding : Bool
  heavy_fall : Bool
  falling : Bool
  boost : Bool
  grappling : Bool
  boost_charge : ℝ
  fall_time : ℝ
  fall_speed : ℝ
  slam_force : ℝ
  slam_storage : Bool
  super_jump_chance : ℝ
  extra_jump_chance : ℝ
  pre_slide_delay : ℝ
  pre_slide_speed : ℝ
  slide_safety_timer : ℝ
  slide_length : ℝ
  standing : Bool
  jump_cooldown : CooldownTimer
  not_jumping_cooldown : CooldownTimer
  jump_timer : ℝ
  jump_buffer_timer : ℝ
  coyote_timer : ℝ
  current_wall_jumps : ℕ
  cling_fade : ℝ
  boost_duration : ℝ
  boost_left : ℝ
  dash_storage : ℝ
  slide_ending_this_frame : Bool
  grapple_target : Vec3

namespace FpsControllerState

/-- `FpsControllerState::new`. -/
def new : FpsControllerState where
  jumping := false
  sliding := false
  heavy_fall := false
  falling := false
  boost := false
  grappling := false
  boost_charge := 300
  fall_time := 0
  fall_speed := 0
  slam_force := 0
  slam_storage := false
  super_jump_chance := 0
  extra_jump_chance := 0
  pre_slide_delay := 0
  pre_slide_speed := 0
  slide_safety_timer := 0
  slide_length := 0
  standing := false
  jump_cooldown := CooldownTimer.new 0.2
  not_jumping_cooldown := CooldownTimer.new 0.25
  jump_timer := 0
  jump_buffer_timer := 0
  coyote_timer := 0
  current_wall_jumps := 0
  cling_fade := 0
  boost_duration := 0.15
  boost_left := 0
  dash_storage := 0
  slide_ending_this_frame := false
  grapple_target := ⟨0, 0, 0⟩

/-- `FpsControllerState::tick_timers`. -/
noncomputable def tick_timers (s : FpsControllerState) (dt : ℝ) : FpsControllerState :=
  let s := { s with jump_cooldown := s.jump_cooldown.tick dt }
  let s := { s with not_jumping_cooldown := s.not_jumping_cooldown.tick dt }
  let s := if s.not_jumping_cooldown.finished_this_tick then { s with jumping := false } else s
  let s :=
    if s.super_jump_chance > 0 then
      { s with super_jump_chance := move_towards s.super_jump_chance 0 dt
               extra_jump_chance := 0.15 }
    else s
  if s.extra_jump_chance > 0 then
    let e := move_towards s.extra_jump_chance 0 dt
    if e ≤ 0 then { s with extra_jump_chance := e, slam_force := 0 }
    else { s with extra_jump_chance := e }
  else s

/-- `FpsControllerState::start_sliding`. -/
def start_sliding (s : FpsControllerState) : FpsControllerState :=
  { s with sliding := true, boost := true, slide_safety_timer := 1 }

/-- `FpsControllerState::stop_sliding`. -/
def stop_sliding (s : FpsControllerState) : FpsControllerState :=
  { s with sliding := false, slide_ending_this_frame := true, slide_length := 0 }

end FpsControllerState

/-- The results of the physics-context queries made by one call of
`systems::controller_move` (capsule ground cast, cylinder wall
intersection, near-ground ray, movement-direction wall ray, the heavy-fall
shape cast, the Dodge wall-run ray) together with the transform's basis
vectors: the physics world is external state, passed in as data. -/
structure Env where
  on_ground : Bool
  on_wall : Bool
  closest_pt : Vec3
  near_ground : Bool
  move_dir_wall_hit : Bool
  heavy_toi : Option ℝ
  wall_ray_normal : Option Vec3
  right : Vec3
  forward : Vec3

/-- The per-entity mutable data of `controller_move`: controller state, the
transform's translation, the rapier `Velocity::linvel` and the camera-shake
trauma written through `Shake3d`. -/
structure Sim where
  state : FpsControllerState
  translation : Vec3
  linvel : Vec3
  trauma : ℝ

/-- The `on_ground` branch of `controller_move` (fall/cling/coyote reset on
ground; coyote decay, jump buffering, variable-height jump timer and fall
timer while airborne). -/
noncomputable def stage_ground (c : FpsController) (i : FpsControllerInput) (e : Env)
    (dt : ℝ) (s : Sim) : Sim :=
  if e.on_ground then
    { s with state := { s.state with fall_time := 0, cling_fade := 0,
                                     coyote_timer := c.coyote_timer_duration } }
  else
    let st := { s.state with coyote_timer := max (s.state.coyote_timer - dt) 0 }
    let st := { st with jump_buffer_timer :=
      if i.jump.pressed then c.jump_buffer_duration else max (st.jump_buffer_timer - dt) 0 }
    let stv : FpsControllerState × Vec3 :=
      if st.jump_timer > 0 then
        if i.jump.down then
          ({ st with jump_timer := max (st.jump_timer - dt) 0 },
           (⟨s.linvel.x, s.linvel.y + c.jump_down_speed, s.linvel.z⟩ : Vec3))
        else
          let vel :=
            if c.jump_time - st.jump_timer > c.min_jump_duration ∧ s.linvel.y > 0 then
              (⟨s.linvel.x, -c.jump_stop_force, s.linvel.z⟩ : Vec3)
            else s.linvel
          ({ st with jump_timer := 0 }, vel)
      else (st, s.linvel)
    let st := stv.1
    let vel := stv.2
    let st :=
      if st.fall_time < 1 then
        let ft := st.fall_time + dt * 5
        { st with fall_time := ft, falling := if ft > 1 then true else st.falling }
      else if vel.y < -2 then { st with fall_speed := vel.y }
      else st
    { s with state := st, linvel := vel }

/-- `jump_requested`, computed after the ground/air branch. -/
noncomputable def jump_requested (i : FpsControllerInput) (s : Sim) : Bool :=
  i.jump.pressed || decide (s.state.jump_buffer_timer > 0)

/-- The fall-velocity clamp of `controller_move`. -/
noncomputable def stage_clamp_fall (c : FpsController) (s : Sim) : Sim :=
  if s.linvel.y < c.max_fall_velocity then
    { s with linvel := ⟨s.linvel.x, c.max_fall_velocity, s.linvel.z⟩ }
  else s

/-- The landing block (`falling` and hit ground this frame). -/
noncomputable def stage_landing (e : Env) (s : Sim) : Sim :=
  if e.on_ground ∧ s.state.falling ∧ s.state.jump_cooldown.is_complete then
    let st := { s.state with falling := false, slam_storage := false }
    let trauma := if st.fall_speed ≤ -50 then 0.5 else s.trauma
    { s with state := { st with fall_speed := 0, heavy_fall := false }, trauma := trauma }
  else s

/-- The airborne slide-press block (slam initiation). -/
noncomputable def stage_slam_start (c : FpsController) (i : FpsControllerInput) (e : Env)
    (s : Sim) : Sim :=
  if ¬e.on_ground ∧ i.slide.pressed then
    let st := s.state.stop_sliding
    let st := if st.boost then { st with boost := false, boost_left := 0 } else st
    if st.fall_time > 0.5 ∧ ¬e.near_ground ∧ ¬st.heavy_fall then
      { s with
        state := { st with falling := true, fall_speed := -c.ground_slam_speed,
                           heavy_fall := true, slam_force := 1 }
        linvel := ⟨0, -c.ground_slam_speed, 0⟩ }
    else { s with state := st }
  else s

/-- The heavy-fall velocity block. -/
noncomputable def stage_heavy_fall (c : FpsController) (dt : ℝ) (s : Sim) : Sim :=
  if s.state.heavy_fall then
    let vel := if ¬s.state.slam_storage then (⟨0, -c.ground_slam_speed, 0⟩ : Vec3) else s.linvel
    { s with linvel := vel, state := { s.state with slam_force := s.state.slam_force + dt * 5 } }
  else s

/-- The coyote/normal jump block of `controller_move`. -/
noncomputable def stage_jump (c : FpsController) (i : FpsControllerInput) (e : Env)
    (dt : ℝ) (jr : Bool) (s : Sim) : Sim :=
  let coyote_jump := jr ∧ ¬e.on_ground ∧ s.state.coyote_timer > 0 ∧ ¬e.on_wall
  let normal_jump := jr ∧ ¬s.state.falling ∧ e.on_ground
  if (coyote_jump ∨ normal_jump) ∧ s.state.jump_cooldown.is_complete then
    let st := { s.state with jump_timer := c.jump_time, jump_buffer_timer := 0,
                             current_wall_jumps := 0, cling_fade := 0, jumping := true,
                             falling := true,
                             not_jumping_cooldown := s.state.not_jumping_cooldown.reset }
    let vel : Vec3 := ⟨s.linvel.x, 0, s.linvel.z⟩
    let svt : FpsControllerState × Vec3 × ℝ :=
      if st.sliding then
        (st.stop_sliding, (⟨vel.x, c.slide_jump_speed, vel.z⟩ : Vec3), s.trauma)
      else if st.boost then
        if st.boost_charge > 100 then
          ({ st with boost_charge := st.boost_charge - 100 },
           (⟨vel.x, c.dash_jump_speed, vel.z⟩ : Vec3), s.trauma)
        else
          let v := i.movement_dir * c.walk_speed * dt
          (st, (⟨v.x, 0, v.z⟩ : Vec3), 0.6)
      else if st.super_jump_chance > 0 ∧ st.extra_jump_chance > 0 then
        let jump_multiplier := if st.slam_force < 5.5 then 0.5 + st.slam_force else 10
        ({ st with slam_force := 0 }, (⟨vel.x, c.jump_speed * jump_multiplier, vel.z⟩ : Vec3), s.trauma)
      else
        (st, (⟨vel.x, c.jump_speed, vel.z⟩ : Vec3), s.trauma)
    { s with
      state := { svt.1 with
                 jump_cooldown := svt.1.jump_cooldown.reset_with_duration 0.25
                 boost := false }
      linvel := svt.2.1
      trauma := svt.2.2 }
  else s

/-- The wall block of `controller_move`: wall cling, then the wall jump. -/
noncomputable def stage_wall (c : FpsController) (i : FpsControllerInput) (e : Env)
    (dt : ℝ) (jr : Bool) (s : Sim) : Sim :=
  if ¬e.on_ground ∧ e.on_wall then
    let s :=
      if ¬s.state.heavy_fall ∧ e.move_dir_wall_hit then
        if s.linvel.y < -1 then
          { s with
            linvel := ⟨fclamp s.linvel.x (-1) 1, -2 * s.state.cling_fade, fclamp s.linvel.z (-1) 1⟩
            state := { s.state with cling_fade := move_towards s.state.cling_fade 50 (dt * 4) }
            trauma := 0.25 }
        else s
      else s
    if jr ∧ s.state.jump_cooldown.is_complete ∧ s.state.current_wall_jumps < 3 then
      let st := { s.state with jump_timer := c.jump_time, jump_buffer_timer := 0,
                               jumping := true,
                               not_jumping_cooldown := s.state.not_jumping_cooldown.reset,
                               jump_cooldown := s.state.jump_cooldown.reset_with_duration 0.1,
                               current_wall_jumps := (s.state.current_wall_jumps + 1) % 2 ^ 8 }
      let st := if st.heavy_fall then { st with slam_storage := true } else st
      let jump_direction := (s.translation - (⟨0, -1, 0⟩ : Vec3) - e.closest_pt).normalize
      let vel : Vec3 := ⟨s.linvel.x, 0, s.linvel.z⟩
      let vel := vel + (⟨jump_direction.x, 1, jump_direction.z⟩ : Vec3) * c.wall_jump_speed
      { s with state := { st with boost := false }, linvel := vel }
    else s
  else s

/-- Slide start on the ground. -/
noncomputable def stage_slide_ground_start (i : FpsControllerInput) (e : Env) (s : Sim) : Sim :=
  if i.slide.pressed ∧ e.on_ground ∧ ¬s.state.sliding then
    { s with state := s.state.start_sliding }
  else s

/-- Slide start near the ground while airborne. -/
noncomputable def stage_slide_air_start (i : FpsControllerInput) (e : Env) (s : Sim) : Sim :=
  if ¬e.on_ground ∧ ¬s.state.sliding ∧ ¬s.state.jumping ∧ i.slide.pressed ∧ e.near_ground then
    { s with state := s.state.start_sliding }
  else s

/-- Slide release. -/
noncomputable def stage_slide_release (i : FpsControllerInput) (s : Sim) : Sim :=
  if i.slide.released then { s with state := s.state.stop_sliding } else s

/-- The sliding upkeep block (slide length, safety timer, ground shake). -/
noncomputable def stage_sliding_update (e : Env) (dt : ℝ) (s : Sim) : Sim :=
  if s.state.sliding then
    let st := { s.state with slide_length := s.state.slide_length + dt }
    let st := if st.slide_safety_timer > 0 then
        { st with slide_safety_timer := st.slide_safety_timer - dt * 5 }
      else st
    { s with state := st, trauma := if e.on_ground then 0.2 else s.trauma }
  else s

/-- The dash block. -/
noncomputable def stage_dash (s : Sim) (i : FpsControllerInput) : Sim :=
  if i.dash.pressed then
    if s.state.boost_charge > 100 then
      let st := s.state.stop_sliding
      let st := { st with boost_left := st.boost_duration, dash_storage := 1, boost := true,
                          boost_charge := st.boost_charge - 100 }
      let st := if st.heavy_fall then { st with fall_speed := 0, heavy_fall := false } else st
      { s with state := st }
    else { s with trauma := 0.5 }
  else s

/-- Boost-charge regeneration. -/
noncomputable def stage_boost_regen (dt : ℝ) (s : Sim) : Sim :=
  if s.state.boost_charge < 300 ∧ ¬s.state.sliding then
    { s with state := { s.state with boost_charge := move_towards s.state.boost_charge 300 (70 * dt) } }
  else s

/-- The FixedUpdate slide-safety block. -/
noncomputable def stage_slide_safety (dt : ℝ) (s : Sim) : Sim :=
  if s.state.sliding ∧ s.state.slide_safety_timer ≤ 0 then
    let ground_speed := Real.sqrt (s.linvel.x * s.linvel.x + s.linvel.z * s.linvel.z)
    if ground_speed < 10 then
      let t := move_towards s.state.slide_safety_timer (-0.1) dt
      let st := { s.state with slide_safety_timer := t }
      if t ≤ -0.1 then { s with state := st.stop_sliding } else { s with state := st }
    else { s with state := { s.state with slide_safety_timer := 0 } }
  else s

/-- The pre-slide speed bookkeeping block. -/
noncomputable def stage_pre_slide (e : Env) (dt : ℝ) (s : Sim) : Sim :=
  if ¬s.state.sliding then
    if s.state.heavy_fall then
      let st := { s.state with pre_slide_delay := 0.2, pre_slide_speed := s.state.slam_force }
      match e.heavy_toi with
      | some toi =>
        { s with
          state := { st with super_jump_chance := 0.085 }
          translation := ⟨s.translation.x, s.translation.y + s.linvel.y * toi, s.translation.z⟩
          linvel := 0 }
      | none => { s with state := st }
    else if ¬s.state.boost ∧ s.state.falling ∧ s.linvel.length / 24 > s.state.pre_slide_speed then
      { s with state := { s.state with pre_slide_delay := 0.2, pre_slide_speed := s.linvel.length / 24 } }
    else
      let d := move_towards s.state.pre_slide_delay 0 dt
      if d ≤ 0 then
        { s with state := { s.state with pre_slide_delay := 0.2, pre_slide_speed := s.linvel.length / 24 } }
      else { s with state := { s.state with pre_slide_delay := d } }
  else s

/-- The `Dodge()` section (runs when `state.boost` holds). -/
noncomputable def stage_dodge (c : FpsController) (i : FpsControllerInput) (e : Env)
    (dt : ℝ) (s : Sim) : Sim :=
  if s.state.sliding then
    let stm : FpsControllerState × ℝ :=
      if s.state.pre_slide_speed > 1 then
        let ps := min s.state.pre_slide_speed 3
        let ps2 := if e.on_ground then ps - ps * dt else ps
        ({ s.state with pre_slide_speed := ps2, pre_slide_delay := 0 }, ps)
      else (s.state, 1)
    let st := stm.1
    let slide_multiplier := stm.2
    let st :=
      if st.boost_left > 0 then
        let ds := move_towards st.dash_storage 0 dt
        if ds ≤ 0 then { st with dash_storage := ds, boost_left := 0 }
        else { st with dash_storage := ds }
      else st
    let new_velocity := i.dash_slide_dir * c.slide_speed * slide_multiplier * dt
    let new_velocity : Vec3 := ⟨new_velocity.x, s.linvel.y - c.gravity * dt, new_velocity.z⟩
    let new_velocity := new_velocity + ((e.right * i.movement.x).clamp_length_max 1) * (5 : ℝ)
    { s with state := st, linvel := new_velocity }
  else
    let st :=
      if ¬e.on_ground ∧ e.on_wall then
        match e.wall_ray_normal with
        | some n =>
          let d := (-i.dash_slide_dir).dot n
          if d < 0.9 then
            let surface_parallel := e.forward - n * (e.forward.dot n)
            let surface_parallel := surface_parallel.normalize_or_zero
            if i.dash_slide_dir.dot surface_parallel > 0 then
              { s.state with boost_left := s.state.boost_left + dt }
            else s.state
          else s.state
        | none => s.state
      else s.state
    let new_velocity := i.dash_slide_dir * c.dash_speed * dt
    let new_velocity : Vec3 :=
      ⟨new_velocity.x, if st.slide_ending_this_frame then s.linvel.y else 0, new_velocity.z⟩
    let vel := if ¬st.slide_ending_this_frame ∨ (e.on_ground ∧ ¬st.jumping) then new_velocity else s.linvel
    let st := { st with boost_left := st.boost_left - dt }
    let sv : FpsControllerState × Vec3 :=
      if st.boost_left ≤ 0 then
        let st := { st with boost := false }
        if ¬e.on_ground ∧ ¬st.slide_ending_this_frame then
          (st, i.dash_slide_dir * c.walk_speed * dt)
        else (st, vel)
      else (st, vel)
    { s with state := { sv.1 with slide_ending_this_frame := false }, linvel := sv.2 }

/-- The `Move()` section: ground walk (with the wall-jump counter reset) or
air movement when `!state.boost`, otherwise `Dodge()`. -/
noncomputable def stage_move (c : FpsController) (i : FpsControllerInput) (e : Env)
    (dt : ℝ) (s : Sim) : Sim :=
  if ¬s.state.boost then
    if e.on_ground ∧ ¬s.state.jumping then
      let st := { s.state with current_wall_jumps := 0 }
      let new_velocity := i.movement_dir * c.walk_speed * dt
      let new_velocity : Vec3 := ⟨new_velocity.x, s.linvel.y - c.gravity * dt, new_velocity.z⟩
      { s with state := st, linvel := s.linvel.lerp new_velocity 0.25 }
    else
      let wish := i.movement_dir * c.walk_speed * dt
      let air_dir : Vec3 :=
        ⟨if (wish.x > 0 ∧ s.linvel.x < wish.x) ∨ (wish.x < 0 ∧ s.linvel.x > wish.x) then wish.x else 0,
         0,
         if (wish.z > 0 ∧ s.linvel.z < wish.z) ∨ (wish.z < 0 ∧ s.linvel.z > wish.z) then wish.z else 0⟩
      let vel_y := s.linvel.y - c.gravity * dt
      let v := s.linvel + air_dir.normalize_or_zero * c.air_acceleration * dt
      { s with linvel := ⟨v.x, vel_y, v.z⟩ }
  else stage_dodge c i e dt s

/-- The prefix of `controller_move` up to and including the ground/air
branch (timers ticked, coyote/buffer/fall bookkeeping done). -/
noncomputable def after_ground (c : FpsController) (i : FpsControllerInput) (e : Env)
    (dt : ℝ) (s : Sim) : Sim :=
  stage_ground c i e dt { s with state := s.state.tick_timers dt }

/-- The value of `jump_requested` inside a `controller_move` call. -/
noncomputable def jr_of (c : FpsController) (i : FpsControllerInput) (e : Env)
    (dt : ℝ) (s : Sim) : Bool :=
  jump_requested i (after_ground c i e dt s)

/-- The prefix of `controller_move` up to (but not including) the wall block. -/
noncomputable def before_wall (c : FpsController) (i : FpsControllerInput) (e : Env)
    (dt : ℝ) (s : Sim) : Sim :=
  let jr := jr_of c i e dt s
  let s := after_ground c i e dt s
  let s := stage_clamp_fall c s
  let s := stage_landing e s
  let s := stage_slam_start c i e s
  let s := stage_heavy_fall c dt s
  stage_jump c i e dt jr s

/-- Whether the wall-jump branch fires during this `controller_move` call. -/
noncomputable def wall_jump_fires (c : FpsController) (i : FpsControllerInput) (e : Env)
    (dt : ℝ) (s : Sim) : Bool :=
  let m := before_wall c i e dt s
  (!e.on_ground && e.on_wall) && jr_of c i e dt s &&
    m.state.jump_cooldown.is_complete && decide (m.state.current_wall_jumps < 3)

/-- One tick of `systems::controller_move` for one controlled entity, as a
state transformer over `Sim`, with the physics queries supplied by `Env`. -/
noncomputable def controller_move (c : FpsController) (i : FpsControllerInput) (e : Env)
    (dt : ℝ) (s : Sim) : Sim :=
  let jr := jr_of c i e dt s
  let s := before_wall c i e dt s
  let s := stage_wall c i e dt jr s
  let s := stage_slide_ground_start i e s
  let s := stage_slide_air_start i e s
  let s := stage_slide_release i s
  let s := stage_sliding_update e dt s
  let s := stage_dash s i
  let s := stage_boost_regen dt s
  let s := stage_slide_safety dt s
  let s := stage_pre_slide e dt s
  stage_move c i e dt s

/-- The spawn state of the controller: `FpsControllerState::new` with zero
velocity, translation and shake trauma. -/
def initSim : Sim :=
  { state := FpsControllerState.new, translation := ⟨0, 0, 0⟩, linvel := ⟨0, 0, 0⟩, trauma := 0 }

/-- One `controller_move` step, for any tuning, input, physics results and
time delta. -/
def Step (s s' : Sim) : Prop :=
  ∃ c i e dt, controller_move c i e dt s = s'

/-- States reachable from the spawn state by repeated `controller_move` ticks. -/
def Reachable (s : Sim) : Prop :=
  Relation.ReflTransGen Step initSim s

end ultrakill

end VM

namespace VM

namespace generate

/-! ### Concrete fixtures used by witnesses -/

/-- A fixed texture record used by the concrete plane fixtures. -/
def texFix : Texture :=
  { name := "fixtex"
    alignment :=
      { axes := { u := { normal := ⟨1, 0, 0⟩, offset := 0 }
                  v := { normal := ⟨0, 1, 0⟩, offset := 0 } }
        rotation := 0
        scale := { u := 1, v := 1 } } }

/-- Winding points yielding the plane through the origin with normal `(1,0,0)`. -/
def plane_nx : Plane :=
  { points := fun i => match i with
      | 0 => ⟨0, 0, 0⟩
      | 1 => ⟨0, 0, 1⟩
      | 2 => ⟨0, 1, 0⟩
    texture := texFix }

/-- Winding points yielding the plane through the origin with normal `(0,1,0)`. -/
def plane_ny : Plane :=
  { points := fun i => match i with
      | 0 => ⟨0, 0, 0⟩
      | 1 => ⟨1, 0, 0⟩
      | 2 => ⟨0, 0, 1⟩
    texture := texFix }

/-- Winding points yielding the plane through the origin with normal `(0,0,1)`. -/
def plane_nz : Plane :=
  { points := fun i => match i with
      | 0 => ⟨0, 0, 0⟩
      | 1 => ⟨0, 1, 0⟩
      | 2 => ⟨1, 0, 0⟩
    texture := texFix }

/-- An entity with no fields and no brushes. -/
def entity0 : MapEntity := { fields := ⟨[]⟩, brushes := [] }

/-- An entity whose fields enable phong smoothing (`_phong = "1"`). -/
def entityPhong : MapEntity := { fields := ⟨[("_phong", "1")]⟩, brushes := [] }

/-- An empty texture-size table. -/
def textures0 : TextureInfo := ⟨[]⟩

/-- A vertex fixture at the origin with normal `(1,0,0)`. -/
def vtxA : Vertex := { vertex := ⟨0, 0, 0⟩, normal := ⟨1, 0, 0⟩, tangent := (⟨1, 0, 0⟩, 1), uv := none }

/-- A vertex fixture at the origin with normal `(0,1,0)`. -/
def vtxB : Vertex := { vertex := ⟨0, 0, 0⟩, normal := ⟨0, 1, 0⟩, tangent := (⟨1, 0, 0⟩, 1), uv := none }

end generate

namespace formats

/-- The Valve-220 plane line given in `shared.rs`'s documentation:
`( 816 -796 356 ) ( 816 -804 356 ) ( 808 -804 356 ) stone1_3 [ 0 -1 0 -20 ] [ 1 0 0 16 ] -0 1 1`. -/
def exLine : List Char :=
  "( 816 -796 356 ) ( 816 -804 356 ) ( 808 -804 356 ) stone1_3 [ 0 -1 0 -20 ] [ 1 0 0 16 ] -0 1 1".toList

/-- The `Plane` value that `exLine` parses to: the three points, the texture
name, the u/v axes with offsets, the rotation and the scale. -/
def exPlane : Plane :=
  ⟨(⟨816, -796, 356⟩, ⟨816, -804, 356⟩, ⟨808, -804, 356⟩),
   ⟨"stone1_3", ⟨⟨⟨⟨0, -1, 0⟩, -20⟩, ⟨⟨1, 0, 0⟩, 16⟩⟩, 0, ⟨1, 1⟩⟩⟩⟩

end formats

namespace ultrakill

/-- The `Default` impl of `ultrakill::components::FpsController`. -/
def FpsControllerDefault : FpsController where
  radius := 0.5
  gravity := 23
  walk_speed := 20 * 30
  slide_speed := 35 * 30
  dash_speed := 150 * 30
  jump_speed := 10.5
  jump_down_speed := 0.2
  jump_time := 0.5
  min_jump_duration := 0.2
  jump_stop_force := 3
  slide_jump_speed := 8
  dash_jump_speed := 8
  wall_jump_speed := 15
  crouch_speed := 50
  uncrouch_speed := 8
  jump_buffer_duration := 0.10
  coyote_timer_duration := 0.2
  air_speed_cap := 2
  air_acceleration := 50
  max_air_speed := 15
  acceleration := 10
  ground_slam_speed := 50
  max_fall_velocity := -100
  friction := 10
  traction_normal_cutoff := 0.7
  friction_speed_cutoff := 0.1
  height := 1
  upright_height := 2
  crouch_height := 1
  stop_speed := 1
  sensitivity := 0.005
  enable_input := true
  step_offset := 0

/-- An input fixture: jump freshly pressed, nothing else active. -/
def inputJump : FpsControllerInput where
  jump := { pressed := true, down := true, released := false }
  slide := { pressed := false, down := false, released := false }
  dash := { pressed := false, down := false, released := false }
  pitch := 0
  yaw := 0
  tilt := 0
  movement := ⟨0, 0, 0⟩
  movement_dir := ⟨0, 0, 0⟩
  dash_slide_dir := ⟨0, 0, 0⟩

/-- A physics-environment fixture: airborne, no walls, nothing nearby. -/
def envAir : Env where
  on_ground := false
  on_wall := false
  closest_pt := ⟨0, 0, 0⟩
  near_ground := false
  move_dir_wall_hit := false
  heavy_toi := none
  wall_ray_normal := none
  right := ⟨1, 0, 0⟩
  forward := ⟨0, 0, -1⟩

/-- A controller snapshot that just walked off a ledge: live coyote timer,
expired jump cooldown, airborne and falling. -/
def simCoyote : Sim where
  state := { FpsControllerState.new with
             coyote_timer := 0.2
             falling := true
             jump_cooldown := { elapsed := 0.3, duration := 0.2, finished := false,
                                finished_this_tick := false } }
  translation := ⟨0, 0, 0⟩
  linvel := ⟨0, 0, 0⟩
  trauma := 0

end ultrakill

end VM

namespace VM

/-! ## Theorems -/

@[simp] theorem Vec3.add_def (a b : Vec3) : a + b = ⟨a.x + b.x, a.y + b.y, a.z + b.z⟩ := rfl

@[simp] theorem Vec3.sub_def (a b : Vec3) : a - b = ⟨a.x - b.x, a.y - b.y, a.z - b.z⟩ := rfl

@[simp] theorem Vec3.neg_def (a : Vec3) : -a = ⟨-a.x, -a.y, -a.z⟩ := rfl

@[simp] theorem Vec3.smul_def (a : Vec3) (s : ℝ) : a * s = ⟨a.x * s, a.y * s, a.z * s⟩ := rfl

@[simp] theorem Vec3.sdiv_def (a : Vec3) (s : ℝ) : a / s = ⟨a.x / s, a.y / s, a.z / s⟩ := rfl

@[simp] theorem Vec3.zero_def : (0 : Vec3) = ⟨0, 0, 0⟩ := rfl

@[simp] theorem Vec3.dot_def (a b : Vec3) : a.dot b = a.x * b.x + a.y * b.y + a.z * b.z := rfl

@[simp] theorem Vec3.cross_def (a b : Vec3) :
    a.cross b = ⟨a.y * b.z - a.z * b.y, a.z * b.x - a.x * b.z, a.x * b.y - a.y * b.x⟩ := rfl

@[simp] theorem Vec2.addv_def (a b : Vec2) : a + b = ⟨a.x + b.x, a.y + b.y⟩ := rfl

@[simp] theorem Vec2.div_def (a b : Vec2) : a / b = ⟨a.x / b.x, a.y / b.y⟩ := rfl

theorem Vec3.sub_add_cancel_vec (p q : Vec3) : p - q + q = p := by
  cases p; cases q; simp

namespace generate

theorem length_eval (a : Vec3) : a.length = Real.sqrt (a.x * a.x + a.y * a.y + a.z * a.z) := rfl

theorem plane_nx_v0 : plane_nx.v0 = ⟨0, 0, 0⟩ := rfl

theorem plane_nx_v1 : plane_nx.v1 = ⟨0, 0, 1⟩ := rfl

theorem plane_nx_v2 : plane_nx.v2 = ⟨0, 1, 0⟩ := rfl

theorem plane_ny_v0 : plane_ny.v0 = ⟨0, 0, 0⟩ := rfl

theorem plane_ny_v1 : plane_ny.v1 = ⟨1, 0, 0⟩ := rfl

theorem plane_ny_v2 : plane_ny.v2 = ⟨0, 0, 1⟩ := rfl

theorem plane_nz_v0 : plane_nz.v0 = ⟨0, 0, 0⟩ := rfl

theorem plane_nz_v1 : plane_nz.v1 = ⟨0, 1, 0⟩ := rfl

theorem plane_nz_v2 : plane_nz.v2 = ⟨1, 0, 0⟩ := rfl

/-- The normal of the fixture plane `plane_nx`. -/
theorem plane_nx_normal : plane_nx.normal = ⟨1, 0, 0⟩ := by
  rw [Plane.normal, Vec3.normalize, length_eval, plane_nx_v0, plane_nx_v1, plane_nx_v2]
  norm_num [Real.sqrt_one]

/-- The normal of the fixture plane `plane_ny`. -/
theorem plane_ny_normal : plane_ny.normal = ⟨0, 1, 0⟩ := by
  rw [Plane.normal, Vec3.normalize, length_eval, plane_ny_v0, plane_ny_v1, plane_ny_v2]
  norm_num [Real.sqrt_one]

/-- The normal of the fixture plane `plane_nz`. -/
theorem plane_nz_normal : plane_nz.normal = ⟨0, 0, 1⟩ := by
  rw [Plane.normal, Vec3.normalize, length_eval, plane_nz_v0, plane_nz_v1, plane_nz_v2]
  norm_num [Real.sqrt_one]

theorem plane_nx_dist : plane_nx.dist = 0 := by
  rw [Plane.dist, plane_nx_normal]; norm_num [plane_nx_v0]

theorem plane_ny_dist : plane_ny.dist = 0 := by
  rw [Plane.dist, plane_ny_normal]; norm_num [plane_ny_v0]

theorem plane_nz_dist : plane_nz.dist = 0 := by
  rw [Plane.dist, plane_nz_normal]; norm_num [plane_nz_v0]

/-- Evaluation of the plane-triple intersection at the three coordinate
plane fixtures: the denominator is `1` and the vertex is the origin. -/
theorem intersect_fixture :
    intersect_brush_planes plane_nx plane_ny plane_nz = some ⟨0, 0, 0⟩ := by
  rw [intersect_brush_planes]
  rw [plane_nx_normal, plane_ny_normal, plane_nz_normal, plane_nx_dist, plane_ny_dist,
    plane_nz_dist]
  norm_num [CMP_EPSILON]

/-- C8: `intersect_brush_planes` is totally guarded against degenerate
division: whenever the scalar triple product `(n0 × n1) · n2` of the three
plane normals is below `CMP_EPSILON = 0.001` — in particular for all
negative, near-parallel and degenerate triples — the function returns
`None`, so the division by the denominator happens only when the
denominator is at least `0.001`. -/
theorem intersect_brush_planes_guard (p0 p1 p2 : Plane)
    (h : (p0.normal.cross p1.normal).dot p2.normal < CMP_EPSILON) :
    intersect_brush_planes p0 p1 p2 = none := by
  rw [intersect_brush_planes]
  simp only [h, if_true, if_pos]

/-- Witness for C8 at a concrete degenerate triple: three copies of the same
plane have triple product `0 < 0.001` and the intersection is `None`. -/
theorem intersect_brush_planes_guard_witness :
    (plane_nz.normal.cross plane_nz.normal).dot plane_nz.normal < CMP_EPSILON ∧
    intersect_brush_planes plane_nz plane_nz plane_nz = none := by
  have h : (plane_nz.normal.cross plane_nz.normal).dot plane_nz.normal < CMP_EPSILON := by
    rw [plane_nz_normal]; norm_num [CMP_EPSILON]
  exact ⟨h, intersect_brush_planes_guard plane_nz plane_nz plane_nz h⟩

end generate

end VM

namespace VM

namespace generate

/-- Inversion for `build_plane_vertex`: a produced vertex comes from a
successful plane-triple intersection that passed the hull filter. -/
theorem build_plane_vertex_some (ti : Option TextureSize) (e : MapEntity)
    (planes : List Plane) (plane p1 p2 : Plane) (vtx : Vertex)
    (h : build_plane_vertex ti e planes plane p1 p2 = some vtx) :
    ∃ w, intersect_brush_planes plane p1 p2 = some w ∧
      vertex_in_hull w planes = true ∧ vtx.vertex = w := by
  unfold build_plane_vertex at h
  cases hI : intersect_brush_planes plane p1 p2 with
  | none => rw [hI] at h; exact absurd h (by simp)
  | some w =>
    rw [hI] at h
    by_cases hH : vertex_in_hull w planes
    · refine ⟨w, rfl, hH, ?_⟩
      simp only [hH, if_true] at h
      cases h
      rfl
    · simp only [hH] at h
      simp at h

/-- Inversion for the `plane_vertices` stage. -/
theorem mem_plane_vertices (ti : Option TextureSize) (e : MapEntity)
    (planes : List Plane) (plane : Plane) (vtx : Vertex)
    (h : vtx ∈ brush_plane.plane_vertices ti e planes plane) :
    ∃ p1 ∈ planes, ∃ p2 ∈ planes, build_plane_vertex ti e planes plane p1 p2 = some vtx := by
  unfold brush_plane.plane_vertices at h
  simp only [List.mem_flatMap, List.mem_filterMap] at h
  obtain ⟨p1, hp1, p2, hp2, hbv⟩ := h
  exact ⟨p1, hp1, p2, hp2, hbv⟩

/-- The phong fold of `unique_vertices` never changes the position. -/
theorem foldl_vertex_preserved (v : Vertex) (l : List Vertex) :
    (l.foldl (fun acc next =>
      if next.vertex = acc.vertex then { acc with normal := next.normal } else acc) v).vertex
      = v.vertex := by
  induction l generalizing v with
  | nil => rfl
  | cons a l ih =>
    rw [List.foldl_cons]
    rw [ih]
    split <;> rfl

/-- Every deduplicated vertex has the position of some raw vertex. -/
theorem mem_unique_vertices (e : MapEntity) (l : List Vertex) (x : Vertex)
    (h : x ∈ brush_plane.unique_vertices e l) : ∃ v ∈ l, x.vertex = v.vertex := by
  induction l with
  | nil => simp [brush_plane.unique_vertices] at h
  | cons v rest ih =>
    rw [brush_plane.unique_vertices] at h
    by_cases hdup : rest.any (fun comp => decide (comp.vertex = v.vertex))
    · rw [if_pos hdup] at h
      obtain ⟨w, hw, he⟩ := ih h
      exact ⟨w, List.mem_cons_of_mem _ hw, he⟩
    · rw [if_neg hdup] at h
      by_cases hp : e.fields.get_property "_phong" = some "1"
      · rw [if_pos hp] at h
        rcases List.mem_cons.mp h with rfl | hmem
        · exact ⟨v, List.mem_cons_self _ _, foldl_vertex_preserved v rest⟩
        · obtain ⟨w, hw, he⟩ := ih hmem
          exact ⟨w, List.mem_cons_of_mem _ hw, he⟩
      · rw [if_neg hp] at h
        rcases List.mem_cons.mp h with rfl | hmem
        · exact ⟨x, List.mem_cons_self _ _, rfl⟩
        · obtain ⟨w, hw, he⟩ := ih hmem
          exact ⟨w, List.mem_cons_of_mem _ hw, he⟩

/-- Unfolding of `brush_plane::build` into its pipeline stages. -/
theorem build_eq (textures : TextureInfo) (e : MapEntity) (planes : List Plane) (plane : Plane) :
    brush_plane.build textures e planes plane =
      (let ti := textures.get plane.texture.name
       let unique := brush_plane.unique_vertices e (brush_plane.plane_vertices ti e planes plane)
       let center := brush_plane.face_center unique
       let u_axis := (plane.points 1 - plane.points 0).normalize
       let v_axis := plane.normal.cross u_axis
       let world := brush_plane.world_vertices
         (brush_plane.wound_vertices u_axis v_axis (brush_plane.local_vertices unique center)) center
       brush_plane.PlaneGeometry.new world (brush_plane.face_indices world.length)
         (match textures.get plane.texture.name with
          | some _ => some plane.texture.name
          | none => none)) := rfl

end generate

end VM

namespace VM

namespace generate

/-- C1: every vertex of a generated face comes from intersecting a triple of
the brush's planes and passed half-space containment filtering.
`intersect_brush_planes` returns `Some v` only when the denominator
`(n0 × n1) · n2` is at least `CMP_EPSILON = 0.001`, with
`v = (n1 × n2 · d0 + n2 × n0 · d1 + n0 × n1 · d2) / denom`; a vertex passes
`vertex_in_hull` exactly when its projection onto every plane's normal
exceeds that plane's distance by no more than `0.001`; and every vertex of
`brush_plane::build`'s output is (the bevy-space image of) such a filtered
triple intersection. -/
theorem build_vertices_from_plane_triples :
    (∀ (p0 p1 p2 : Plane) (v : Vec3),
       intersect_brush_planes p0 p1 p2 = some v →
         CMP_EPSILON ≤ (p0.normal.cross p1.normal).dot p2.normal ∧
         v = ((p1.normal.cross p2.normal) * p0.dist + (p2.normal.cross p0.normal) * p1.dist +
              (p0.normal.cross p1.normal) * p2.dist) /
             ((p0.normal.cross p1.normal).dot p2.normal)) ∧
    (∀ (v : Vec3) (hull : List Plane),
       vertex_in_hull v hull = true ↔ ∀ p ∈ hull, p.normal.dot v - p.dist ≤ CMP_EPSILON) ∧
    (∀ (textures : TextureInfo) (e : MapEntity) (planes : List Plane) (plane : Plane),
       (brush_plane.build textures e planes plane).vertices.Forall fun vtx =>
         ∃ p1 ∈ planes, ∃ p2 ∈ planes, ∃ w,
           intersect_brush_planes plane p1 p2 = some w ∧
           vertex_in_hull w planes = true ∧
           vtx.vertex = quake_point_to_bevy_point w 16) := by
  have hkey : ∀ (v : Vec3) (p : Plane),
      (!(decide (p.normal.dot v > p.dist) && decide (p.normal.dot v - p.dist > CMP_EPSILON))) = true
        ↔ p.normal.dot v - p.dist ≤ CMP_EPSILON := by
    intro v p
    constructor
    · intro h
      by_contra hc
      push_neg at hc
      have h1 : p.normal.dot v > p.dist := by
        have h0 : (0 : ℝ) < CMP_EPSILON := by norm_num [CMP_EPSILON]
        nlinarith
      rw [decide_eq_true h1, decide_eq_true hc] at h
      simp at h
    · intro h
      have h2 : decide (p.normal.dot v - p.dist > CMP_EPSILON) = false :=
        decide_eq_false (not_lt.mpr h)
      rw [h2]
      simp
  refine ⟨?_, ?_, ?_⟩
  · intro p0 p1 p2 v h
    unfold intersect_brush_planes at h
    simp only [] at h
    by_cases hd : (p0.normal.cross p1.normal).dot p2.normal < CMP_EPSILON
    · rw [if_pos hd] at h
      exact absurd h (by simp)
    · rw [if_neg hd] at h
      cases h
      exact ⟨not_lt.mp hd, rfl⟩
  · intro v hull
    unfold vertex_in_hull
    rw [List.all_eq_true]
    exact forall_congr' fun p => forall_congr' fun _ => hkey v p
  · intro textures e planes plane
    rw [List.forall_iff_forall_mem]
    intro vtx hv
    rw [build_eq] at hv
    simp only [brush_plane.PlaneGeometry.new, brush_plane.world_vertices,
      brush_plane.local_vertices, brush_plane.wound_vertices, List.mem_map,
      List.mem_mergeSort] at hv
    obtain ⟨a, ⟨a1, ⟨u, hu, ha1⟩, ha⟩, hvtx⟩ := hv
    obtain ⟨vraw, hvr, hpos⟩ := mem_unique_vertices e _ u hu
    obtain ⟨p1, hp1, p2, hp2, hbv⟩ := mem_plane_vertices _ _ _ _ _ hvr
    obtain ⟨w, hI, hH, hw⟩ := build_plane_vertex_some _ _ _ _ _ _ _ hbv
    refine ⟨p1, hp1, p2, hp2, w, hI, hH, ?_⟩
    subst ha1
    subst ha
    subst hvtx
    show quake_point_to_bevy_point (u.vertex - _ + _) 16 = _
    rw [Vec3.sub_add_cancel_vec, hpos, hw]

end generate

end VM

namespace VM

namespace generate

/-- Witness for C1: the three coordinate-plane fixtures intersect in the
origin, their denominator is at least `0.001`, and the vertex equals the
stated formula. -/
theorem build_vertices_from_plane_triples_witness :
    intersect_brush_planes plane_nx plane_ny plane_nz = some ⟨0, 0, 0⟩ ∧
    (CMP_EPSILON ≤ (plane_nx.normal.cross plane_ny.normal).dot plane_nz.normal ∧
     (⟨0, 0, 0⟩ : Vec3) =
       ((plane_ny.normal.cross plane_nz.normal) * plane_nx.dist +
        (plane_nz.normal.cross plane_nx.normal) * plane_ny.dist +
        (plane_nx.normal.cross plane_ny.normal) * plane_nz.dist) /
       ((plane_nx.normal.cross plane_ny.normal).dot plane_nz.normal)) :=
  ⟨intersect_fixture,
   build_vertices_from_plane_triples.1 plane_nx plane_ny plane_nz _ intersect_fixture⟩

/-- C6: UV coordinates are the projection of the vertex onto the plane's
texture axes: with a registered texture size `(w, h)`, Valve axes `nu, nv`,
offsets `ou, ov` and scales `su, sv`, `valve_uv` returns
`(nu·p/(w·su) + ou/w, nv·p/(h·sv) + ov/h)`; `build_plane_vertex` attaches
exactly this `uv` when a texture size is registered and `None` otherwise. -/
theorem valve_uv_projection :
    (∀ (vertex : Vec3) (plane : Plane) (t : TextureSize),
       valve_uv vertex plane t =
         ⟨plane.texture.alignment.axes.u.normal.dot vertex /
            ((t.width : ℝ) * plane.texture.alignment.scale.u) +
            plane.texture.alignment.axes.u.offset / (t.width : ℝ),
          plane.texture.alignment.axes.v.normal.dot vertex /
            ((t.height : ℝ) * plane.texture.alignment.scale.v) +
            plane.texture.alignment.axes.v.offset / (t.height : ℝ)⟩) ∧
    (∀ (e : MapEntity) (planes : List Plane) (plane p1 p2 : Plane) (vtx : Vertex),
       build_plane_vertex none e planes plane p1 p2 = some vtx → vtx.uv = none) ∧
    (∀ (t : TextureSize) (e : MapEntity) (planes : List Plane) (plane p1 p2 : Plane)
       (vtx : Vertex),
       build_plane_vertex (some t) e planes plane p1 p2 = some vtx →
         vtx.uv = some (valve_uv vtx.vertex plane t)) := by
  refine ⟨?_, ?_, ?_⟩
  · intro vertex plane t
    simp [valve_uv, TextureSize.size, div_div]
  · intro e planes plane p1 p2 vtx h
    unfold build_plane_vertex at h
    cases hI : intersect_brush_planes plane p1 p2 with
    | none => rw [hI] at h; exact absurd h (by simp)
    | some w =>
      rw [hI] at h
      by_cases hH : vertex_in_hull w planes
      · simp only [hH, if_true] at h
        cases h
        rfl
      · simp only [hH] at h
        simp at h
  · intro t e planes plane p1 p2 vtx h
    unfold build_plane_vertex at h
    cases hI : intersect_brush_planes plane p1 p2 with
    | none => rw [hI] at h; exact absurd h (by simp)
    | some w =>
      rw [hI] at h
      by_cases hH : vertex_in_hull w planes
      · simp only [hH, if_true] at h
        cases h
        rfl
      · simp only [hH] at h
        simp at h

/-- Evaluation of `build_plane_vertex` (with no registered texture size) at
the coordinate-plane fixtures. -/
theorem build_plane_vertex_fixture :
    build_plane_vertex none entity0 [] plane_nx plane_ny plane_nz =
      some { vertex := ⟨0, 0, 0⟩, normal := ⟨1, 0, 0⟩, tangent := (⟨1, 0, 0⟩, -1), uv := none } := by
  unfold build_plane_vertex
  rw [intersect_fixture]
  dsimp only
  have hhull : vertex_in_hull ⟨0, 0, 0⟩ ([] : List Plane) = true := rfl
  rw [hhull]
  simp only [if_true]
  have hvn : vertex_normal entity0 plane_nx plane_ny plane_nz = ⟨1, 0, 0⟩ := by
    unfold vertex_normal
    rw [if_neg (by simp [entity0, Fields.get_property])]
    exact plane_nx_normal
  have htan : valve_tangent plane_nx = (⟨1, 0, 0⟩, -1) := by
    unfold valve_tangent
    rw [plane_nx_normal]
    norm_num [plane_nx, texFix, fsignum]
  rw [hvn, htan]

/-- Witness for C6: at the fixtures, `build_plane_vertex` without a
registered texture size produces a vertex whose `uv` is `None`. -/
theorem valve_uv_projection_witness :
    build_plane_vertex none entity0 [] plane_nx plane_ny plane_nz =
      some { vertex := ⟨0, 0, 0⟩, normal := ⟨1, 0, 0⟩, tangent := (⟨1, 0, 0⟩, -1), uv := none } ∧
    ({ vertex := ⟨0, 0, 0⟩, normal := ⟨1, 0, 0⟩, tangent := (⟨1, 0, 0⟩, -1),
       uv := none } : Vertex).uv = none :=
  ⟨build_plane_vertex_fixture,
   valve_uv_projection.2.1 entity0 [] plane_nx plane_ny plane_nz _ build_plane_vertex_fixture⟩

theorem flatMap_fan_length (k : ℕ) :
    ((List.range k).flatMap fun i => [0, i + 1, i + 2]).length = 3 * k := by
  induction k with
  | zero => rfl
  | succ k ih =>
    rw [List.range_succ, List.flatMap_append, List.length_append, ih]
    simp
    omega

/-- C9: the index buffer of every generated face is valid for its vertex
list: empty when there are fewer than 3 vertices, otherwise the reversal of
the triangle fan `[0,1,2, 0,2,3, …]`, with exactly `3·(n−2)` entries, each
strictly below the number of vertices. -/
theorem face_index_buffer_valid (textures : TextureInfo) (e : MapEntity)
    (planes : List Plane) (plane : Plane) :
    (brush_plane.build textures e planes plane).indices =
      brush_plane.face_indices (brush_plane.build textures e planes plane).vertices.length ∧
    (brush_plane.build textures e planes plane).indices.length =
      3 * ((brush_plane.build textures e planes plane).vertices.length - 2) ∧
    (∀ i ∈ (brush_plane.build textures e planes plane).indices,
       i < (brush_plane.build textures e planes plane).vertices.length) ∧
    ((brush_plane.build textures e planes plane).vertices.length < 3 →
      (brush_plane.build textures e planes plane).indices = []) ∧
    (3 ≤ (brush_plane.build textures e planes plane).vertices.length →
      (brush_plane.build textures e planes plane).indices =
        ((List.range ((brush_plane.build textures e planes plane).vertices.length - 2)).flatMap
          fun i => [0, i + 1, i + 2]).reverse) := by
  have hveq : (brush_plane.build textures e planes plane).vertices.length =
      (brush_plane.world_vertices
        (brush_plane.wound_vertices
          ((plane.points 1 - plane.points 0).normalize)
          (plane.normal.cross ((plane.points 1 - plane.points 0).normalize))
          (brush_plane.local_vertices
            (brush_plane.unique_vertices e
              (brush_plane.plane_vertices (textures.get plane.texture.name) e planes plane))
            (brush_plane.face_center
              (brush_plane.unique_vertices e
                (brush_plane.plane_vertices (textures.get plane.texture.name) e planes plane)))))
        (brush_plane.face_center
          (brush_plane.unique_vertices e
            (brush_plane.plane_vertices (textures.get plane.texture.name) e planes plane)))).length := by
    rw [build_eq]
    simp [brush_plane.PlaneGeometry.new]
  have hieq : (brush_plane.build textures e planes plane).indices =
      brush_plane.face_indices (brush_plane.build textures e planes plane).vertices.length := by
    rw [hveq]
    rfl
  have hlen : ∀ n, (brush_plane.face_indices n).length = 3 * (n - 2) := by
    intro n
    unfold brush_plane.face_indices
    rw [List.length_reverse]
    by_cases h : n < 3
    · rw [if_pos h]
      simp
      omega
    · rw [if_neg h]
      exact flatMap_fan_length (n - 2)
  have hlt : ∀ n i, i ∈ brush_plane.face_indices n → i < n := by
    intro n i h
    unfold brush_plane.face_indices at h
    rw [List.mem_reverse] at h
    by_cases h3 : n < 3
    · rw [if_pos h3] at h
      simp at h
    · rw [if_neg h3] at h
      simp only [List.mem_flatMap, List.mem_range] at h
      obtain ⟨j, hj, hi⟩ := h
      simp at hi
      omega
  refine ⟨hieq, ?_, ?_, ?_, ?_⟩
  · rw [hieq]; exact hlen _
  · intro i hi
    rw [hieq] at hi
    exact hlt _ _ hi
  · intro h3
    rw [hieq]
    unfold brush_plane.face_indices
    rw [if_pos h3]
    rfl
  · intro h3
    rw [hieq]
    unfold brush_plane.face_indices
    rw [if_neg (by omega)]

end generate

end VM

namespace VM

namespace generate

/-- C2: the deduplicated vertices of a face, re-centred on the face
centroid, are sorted by descending `atan2` angle around the face's own
normal frame (`u = normalize(points[1] − points[0])`, `v = normal × u`):
along the sorted output the winding angle is non-increasing, and the
face's final vertices are exactly this sorted list with the centroid added
back (then converted to bevy space). -/
theorem winding_sort_descending (textures : TextureInfo) (e : MapEntity)
    (planes : List Plane) (plane : Plane) :
    List.Pairwise (fun a b =>
      brush_plane.wind_angle ((plane.points 1 - plane.points 0).normalize)
          (plane.normal.cross ((plane.points 1 - plane.points 0).normalize)) b.vertex ≤
        brush_plane.wind_angle ((plane.points 1 - plane.points 0).normalize)
          (plane.normal.cross ((plane.points 1 - plane.points 0).normalize)) a.vertex)
      (brush_plane.wound_vertices ((plane.points 1 - plane.points 0).normalize)
        (plane.normal.cross ((plane.points 1 - plane.points 0).normalize))
        (brush_plane.local_vertices
          (brush_plane.unique_vertices e
            (brush_plane.plane_vertices (textures.get plane.texture.name) e planes plane))
          (brush_plane.face_center
            (brush_plane.unique_vertices e
              (brush_plane.plane_vertices (textures.get plane.texture.name) e planes plane))))) ∧
    (brush_plane.build textures e planes plane).vertices =
      (brush_plane.world_vertices
        (brush_plane.wound_vertices ((plane.points 1 - plane.points 0).normalize)
          (plane.normal.cross ((plane.points 1 - plane.points 0).normalize))
          (brush_plane.local_vertices
            (brush_plane.unique_vertices e
              (brush_plane.plane_vertices (textures.get plane.texture.name) e planes plane))
            (brush_plane.face_center
              (brush_plane.unique_vertices e
                (brush_plane.plane_vertices (textures.get plane.texture.name) e planes plane)))))
        (brush_plane.face_center
          (brush_plane.unique_vertices e
            (brush_plane.plane_vertices (textures.get plane.texture.name) e planes plane)))).map
        fun v => { v with vertex := quake_point_to_bevy_point v.vertex 16
                          normal := quake_direction_to_bevy_direction v.normal } := by
  constructor
  · have h := @List.sorted_mergeSort _
      (brush_plane.wind_le ((plane.points 1 - plane.points 0).normalize)
        (plane.normal.cross ((plane.points 1 - plane.points 0).normalize)))
      (fun a b c hab hbc => by
        simp only [brush_plane.wind_le, decide_eq_true_eq] at hab hbc ⊢
        exact le_trans hbc hab)
      (fun a b => by
        simp only [brush_plane.wind_le]
        rcases le_total
          (brush_plane.wind_angle ((plane.points 1 - plane.points 0).normalize)
            (plane.normal.cross ((plane.points 1 - plane.points 0).normalize)) b.vertex)
          (brush_plane.wind_angle ((plane.points 1 - plane.points 0).normalize)
            (plane.normal.cross ((plane.points 1 - plane.points 0).normalize)) a.vertex)
          with hle | hle
        · rw [decide_eq_true hle]; rfl
        · rw [decide_eq_true hle]; simp)
      (brush_plane.local_vertices
        (brush_plane.unique_vertices e
          (brush_plane.plane_vertices (textures.get plane.texture.name) e planes plane))
        (brush_plane.face_center
          (brush_plane.unique_vertices e
            (brush_plane.plane_vertices (textures.get plane.texture.name) e planes plane))))
    refine List.Pairwise.imp ?_ h
    intro a b hab
    simpa [brush_plane.wind_le, decide_eq_true_eq] using hab
  · rfl

end generate

end VM

namespace VM

namespace generate

/-- C3 (code bug): with `_phong = "1"`, `brush_plane::build`'s
duplicate-vertex merge does not aggregate the phong normals. At two
duplicate-position vertices with normals `(1,0,0)` and `(0,1,0)` the merge
keeps only the later vertex's normal `(0,1,0)` (re-normalized), which
differs from the normalized aggregate `normalize((1,0,0)+(0,1,0))` that the
claim (and the code's own comment, "aggregate phong normals") describes:
the aggregation fold ranges over the entries after the kept occurrence,
but the kept occurrence is the one with no later duplicate, so the fold
can never match. -/
theorem phong_merge_keeps_last_normal :
    brush_plane.unique_vertices entityPhong [vtxA, vtxB] =
      [{ vtxB with normal := Vec3.normalize ⟨0, 1, 0⟩ }] ∧
    Vec3.normalize ⟨0, 1, 0⟩ = ⟨0, 1, 0⟩ ∧
    ({ vtxB with normal := Vec3.normalize ⟨0, 1, 0⟩ } : Vertex).normal ≠
      Vec3.normalize (vtxA.normal + vtxB.normal) := by
  have hnorm : Vec3.normalize ⟨0, 1, 0⟩ = ⟨0, 1, 0⟩ := by
    rw [Vec3.normalize, length_eval]
    norm_num [Real.sqrt_one]
  refine ⟨?_, hnorm, ?_⟩
  · have h1 : [vtxB].any (fun comp => decide (comp.vertex = vtxA.vertex)) = true := by
      simp [vtxA, vtxB]
    rw [brush_plane.unique_vertices, if_pos h1, brush_plane.unique_vertices]
    have h2 : ¬(([] : List Vertex).any (fun comp => decide (comp.vertex = vtxB.vertex)) = true) := by
      simp
    rw [if_neg h2, if_pos (show entityPhong.fields.get_property "_phong" = some "1" from rfl)]
    rfl
  · rw [hnorm]
    have hlen : (vtxA.normal + vtxB.normal).length = Real.sqrt 2 := by
      rw [length_eval]
      norm_num [vtxA, vtxB]
    intro h
    rw [Vec3.normalize, hlen] at h
    have hx := congrArg Vec3.x h
    simp [vtxA, vtxB] at hx
    have h2 : Real.sqrt 2 ≠ 0 := by
      positivity
    exact h2 hx.symm

end generate

end VM

namespace VM

namespace generate

/-- A brush with no planes produces a face with no vertices. -/
theorem build_fixture_vertices_nil :
    (brush_plane.build textures0 entity0 [] plane_nx).vertices = [] := by
  rw [build_eq]
  simp [brush_plane.plane_vertices, brush_plane.unique_vertices, brush_plane.local_vertices,
    brush_plane.wound_vertices, brush_plane.world_vertices, brush_plane.PlaneGeometry.new]

/-- Witness for C9: the empty-brush face has fewer than 3 vertices and its
index buffer is empty. -/
theorem face_index_buffer_valid_witness :
    (brush_plane.build textures0 entity0 [] plane_nx).vertices.length < 3 ∧
    (brush_plane.build textures0 entity0 [] plane_nx).indices = [] := by
  have h : (brush_plane.build textures0 entity0 [] plane_nx).vertices.length < 3 := by
    rw [build_fixture_vertices_nil]
    norm_num
  exact ⟨h, (face_index_buffer_valid textures0 entity0 [] plane_nx).2.2.2.1 h⟩

end generate

end VM

namespace VM

namespace ultrakill

theorem tick_timers_coyote (s : FpsControllerState) (dt : ℝ) :
    (s.tick_timers dt).coyote_timer = s.coyote_timer := by
  unfold FpsControllerState.tick_timers
  repeat' (first | split | dsimp only)
  all_goals rfl

theorem stage_clamp_fall_coyote (c : FpsController) (s : Sim) :
    (stage_clamp_fall c s).state.coyote_timer = s.state.coyote_timer := by
  unfold stage_clamp_fall
  repeat' (first | split | dsimp only)
  all_goals rfl

theorem stage_landing_coyote (e : Env) (s : Sim) :
    (stage_landing e s).state.coyote_timer = s.state.coyote_timer := by
  unfold stage_landing
  repeat' (first | split | dsimp only)
  all_goals rfl

theorem stage_slam_start_coyote (c : FpsController) (i : FpsControllerInput) (e : Env) (s : Sim) :
    (stage_slam_start c i e s).state.coyote_timer = s.state.coyote_timer := by
  unfold stage_slam_start FpsControllerState.stop_sliding
  repeat' (first | split | dsimp only)
  all_goals rfl

theorem stage_heavy_fall_coyote (c : FpsController) (dt : ℝ) (s : Sim) :
    (stage_heavy_fall c dt s).state.coyote_timer = s.state.coyote_timer := by
  unfold stage_heavy_fall
  repeat' (first | split | dsimp only)
  all_goals rfl

theorem stage_jump_coyote (c : FpsController) (i : FpsControllerInput) (e : Env) (dt : ℝ)
    (jr : Bool) (s : Sim) :
    (stage_jump c i e dt jr s).state.coyote_timer = s.state.coyote_timer := by
  unfold stage_jump FpsControllerState.stop_sliding
  repeat' (first | split | dsimp only)
  all_goals rfl

theorem stage_wall_coyote (c : FpsController) (i : FpsControllerInput) (e : Env) (dt : ℝ)
    (jr : Bool) (s : Sim) :
    (stage_wall c i e dt jr s).state.coyote_timer = s.state.coyote_timer := by
  unfold stage_wall
  repeat' (first | split | dsimp only)
  all_goals rfl

theorem stage_slide_ground_start_coyote (i : FpsControllerInput) (e : Env) (s : Sim) :
    (stage_slide_ground_start i e s).state.coyote_timer = s.state.coyote_timer := by
  unfold stage_slide_ground_start FpsControllerState.start_sliding
  repeat' (first | split | dsimp only)
  all_goals rfl

theorem stage_slide_air_start_coyote (i : FpsControllerInput) (e : Env) (s : Sim) :
    (stage_slide_air_start i e s).state.coyote_timer = s.state.coyote_timer := by
  unfold stage_slide_air_start FpsControllerState.start_sliding
  repeat' (first | split | dsimp only)
  all_goals rfl

theorem stage_slide_release_coyote (i : FpsControllerInput) (s : Sim) :
    (stage_slide_release i s).state.coyote_timer = s.state.coyote_timer := by
  unfold stage_slide_release FpsControllerState.stop_sliding
  repeat' (first | split | dsimp only)
  all_goals rfl

theorem stage_sliding_update_coyote (e : Env) (dt : ℝ) (s : Sim) :
    (stage_sliding_update e dt s).state.coyote_timer = s.state.coyote_timer := by
  unfold stage_sliding_update
  repeat' (first | split | dsimp only)
  all_goals rfl

theorem stage_dash_coyote (s : Sim) (i : FpsControllerInput) :
    (stage_dash s i).state.coyote_timer = s.state.coyote_timer := by
  unfold stage_dash FpsControllerState.stop_sliding
  repeat' (first | split | dsimp only)
  all_goals rfl

theorem stage_boost_regen_coyote (dt : ℝ) (s : Sim) :
    (stage_boost_regen dt s).state.coyote_timer = s.state.coyote_timer := by
  unfold stage_boost_regen
  repeat' (first | split | dsimp only)
  all_goals rfl

theorem stage_slide_safety_coyote (dt : ℝ) (s : Sim) :
    (stage_slide_safety dt s).state.coyote_timer = s.state.coyote_timer := by
  unfold stage_slide_safety FpsControllerState.stop_sliding
  repeat' (first | split | dsimp only)
  all_goals rfl

theorem stage_pre_slide_coyote (e : Env) (dt : ℝ) (s : Sim) :
    (stage_pre_slide e dt s).state.coyote_timer = s.state.coyote_timer := by
  unfold stage_pre_slide
  repeat' (first | split | dsimp only)
  all_goals rfl

theorem stage_dodge_coyote (c : FpsController) (i : FpsControllerInput) (e : Env) (dt : ℝ)
    (s : Sim) :
    (stage_dodge c i e dt s).state.coyote_timer = s.state.coyote_timer := by
  unfold stage_dodge
  repeat' (first | split | dsimp only)
  all_goals rfl

theorem stage_move_coyote (c : FpsController) (i : FpsControllerInput) (e : Env) (dt : ℝ)
    (s : Sim) :
    (stage_move c i e dt s).state.coyote_timer = s.state.coyote_timer := by
  unfold stage_move
  repeat' (first | split | dsimp only)
  all_goals first | rfl | exact stage_dodge_coyote c i e dt s

theorem stage_ground_coyote (c : FpsController) (i : FpsControllerInput) (e : Env) (dt : ℝ)
    (s : Sim) :
    (stage_ground c i e dt s).state.coyote_timer =
      (if e.on_ground then c.coyote_timer_duration else max (s.state.coyote_timer - dt) 0) := by
  unfold stage_ground
  by_cases hg : e.on_ground = true
  · rw [if_pos (by simp [hg]), if_pos hg]
  · rw [if_neg (by simp [hg]), if_neg hg]
    repeat' (first | split | dsimp only)
    all_goals rfl

end ultrakill

end VM

namespace VM

namespace ultrakill

theorem tick_timers_cwj (s : FpsControllerState) (dt : ℝ) :
    (s.tick_timers dt).current_wall_jumps = s.current_wall_jumps := by
  unfold FpsControllerState.tick_timers
  repeat' (first | split | dsimp only)
  all_goals rfl

theorem stage_ground_cwj (c : FpsController) (i : FpsControllerInput) (e : Env) (dt : ℝ)
    (s : Sim) :
    (stage_ground c i e dt s).state.current_wall_jumps = s.state.current_wall_jumps := by
  unfold stage_ground
  repeat' (first | split | dsimp only)
  all_goals rfl

theorem stage_clamp_fall_cwj (c : FpsController) (s : Sim) :
    (stage_clamp_fall c s).state.current_wall_jumps = s.state.current_wall_jumps := by
  unfold stage_clamp_fall
  repeat' (first | split | dsimp only)
  all_goals rfl

theorem stage_landing_cwj (e : Env) (s : Sim) :
    (stage_landing e s).state.current_wall_jumps = s.state.current_wall_jumps := by
  unfold stage_landing
  repeat' (first | split | dsimp only)
  all_goals rfl

theorem stage_slam_start_cwj (c : FpsController) (i : FpsControllerInput) (e : Env) (s : Sim) :
    (stage_slam_start c i e s).state.current_wall_jumps = s.state.current_wall_jumps := by
  unfold stage_slam_start FpsControllerState.stop_sliding
  repeat' (first | split | dsimp only)
  all_goals rfl

theorem stage_heavy_fall_cwj (c : FpsController) (dt : ℝ) (s : Sim) :
    (stage_heavy_fall c dt s).state.current_wall_jumps = s.state.current_wall_jumps := by
  unfold stage_heavy_fall
  repeat' (first | split | dsimp only)
  all_goals rfl

theorem stage_slide_ground_start_cwj (i : FpsControllerInput) (e : Env) (s : Sim) :
    (stage_slide_ground_start i e s).state.current_wall_jumps = s.state.current_wall_jumps := by
  unfold stage_slide_ground_start FpsControllerState.start_sliding
  repeat' (first | split | dsimp only)
  all_goals rfl

theorem stage_slide_air_start_cwj (i : FpsControllerInput) (e : Env) (s : Sim) :
    (stage_slide_air_start i e s).state.current_wall_jumps = s.state.current_wall_jumps := by
  unfold stage_slide_air_start FpsControllerState.start_sliding
  repeat' (first | split | dsimp only)
  all_goals rfl

theorem stage_slide_release_cwj (i : FpsControllerInput) (s : Sim) :
    (stage_slide_release i s).state.current_wall_jumps = s.state.current_wall_jumps := by
  unfold stage_slide_release FpsControllerState.stop_sliding
  repeat' (first | split | dsimp only)
  all_goals rfl

theorem stage_sliding_update_cwj (e : Env) (dt : ℝ) (s : Sim) :
    (stage_sliding_update e dt s).state.current_wall_jumps = s.state.current_wall_jumps := by
  unfold stage_sliding_update
  repeat' (first | split | dsimp only)
  all_goals rfl

theorem stage_dash_cwj (s : Sim) (i : FpsControllerInput) :
    (stage_dash s i).state.current_wall_jumps = s.state.current_wall_jumps := by
  unfold stage_dash FpsControllerState.stop_sliding
  repeat' (first | split | dsimp only)
  all_goals rfl

theorem stage_boost_regen_cwj (dt : ℝ) (s : Sim) :
    (stage_boost_regen dt s).state.current_wall_jumps = s.state.current_wall_jumps := by
  unfold stage_boost_regen
  repeat' (first | split | dsimp only)
  all_goals rfl

theorem stage_slide_safety_cwj (dt : ℝ) (s : Sim) :
    (stage_slide_safety dt s).state.current_wall_jumps = s.state.current_wall_jumps := by
  unfold stage_slide_safety FpsControllerState.stop_sliding
  repeat' (first | split | dsimp only)
  all_goals rfl

theorem stage_pre_slide_cwj (e : Env) (dt : ℝ) (s : Sim) :
    (stage_pre_slide e dt s).state.current_wall_jumps = s.state.current_wall_jumps := by
  unfold stage_pre_slide
  repeat' (first | split | dsimp only)
  all_goals rfl

theorem stage_dodge_cwj (c : FpsController) (i : FpsControllerInput) (e : Env) (dt : ℝ)
    (s : Sim) :
    (stage_dodge c i e dt s).state.current_wall_jumps = s.state.current_wall_jumps := by
  unfold stage_dodge
  repeat' (first | split | dsimp only)
  all_goals rfl

theorem stage_move_cwj (c : FpsController) (i : FpsControllerInput) (e : Env) (dt : ℝ)
    (s : Sim) :
    (stage_move c i e dt s).state.current_wall_jumps = 0 ∨
    (stage_move c i e dt s).state.current_wall_jumps = s.state.current_wall_jumps := by
  unfold stage_move
  repeat' (first | split | dsimp only)
  all_goals first
    | (left; rfl)
    | (right; rfl)
    | (right; exact stage_dodge_cwj c i e dt s)

theorem stage_move_cwj_air (c : FpsController) (i : FpsControllerInput) (e : Env) (dt : ℝ)
    (s : Sim) (hg : e.on_ground = false) :
    (stage_move c i e dt s).state.current_wall_jumps = s.state.current_wall_jumps := by
  unfold stage_move
  by_cases hb : s.state.boost = true
  · rw [if_neg (by simp [hb])]
    exact stage_dodge_cwj c i e dt s
  · rw [if_pos (by simp [hb]), if_neg (by simp [hg])]

theorem stage_jump_cases (c : FpsController) (i : FpsControllerInput) (e : Env) (dt : ℝ)
    (jr : Bool) (s : Sim) :
    stage_jump c i e dt jr s = s ∨
    ((stage_jump c i e dt jr s).state.current_wall_jumps = 0 ∧
     (stage_jump c i e dt jr s).state.jump_cooldown.elapsed = 0 ∧
     (stage_jump c i e dt jr s).state.jump_cooldown.duration = 0.25) := by
  unfold stage_jump
  dsimp only
  split
  · right
    refine ⟨?_, ?_, ?_⟩ <;>
      (repeat' (first | split | dsimp only)
       all_goals rfl)
  · left; rfl

theorem stage_wall_not_fired_cwj (c : FpsController) (i : FpsControllerInput) (e : Env)
    (dt : ℝ) (jr : Bool) (s : Sim)
    (h : ¬((¬e.on_ground ∧ e.on_wall) ∧ jr = true ∧
          s.state.jump_cooldown.is_complete = true ∧ s.state.current_wall_jumps < 3)) :
    (stage_wall c i e dt jr s).state.current_wall_jumps = s.state.current_wall_jumps := by
  unfold stage_wall
  by_cases ho : (¬e.on_ground ∧ e.on_wall : Prop)
  · rw [if_pos ho]
    repeat' (first | split | dsimp only)
    all_goals first
      | rfl
      | tauto
  · rw [if_neg ho]

theorem stage_wall_fired_cwj (c : FpsController) (i : FpsControllerInput) (e : Env)
    (dt : ℝ) (jr : Bool) (s : Sim)
    (hg : e.on_ground = false) (hw : e.on_wall = true) (hjr : jr = true)
    (hcompl : s.state.jump_cooldown.is_complete = true)
    (hlt : s.state.current_wall_jumps < 3) :
    (stage_wall c i e dt jr s).state.current_wall_jumps =
      (s.state.current_wall_jumps + 1) % 2 ^ 8 := by
  unfold stage_wall
  rw [if_pos (by simp [hg, hw])]
  repeat' (first | split | dsimp only)
  all_goals first
    | rfl
    | tauto

theorem stage_wall_cwj (c : FpsController) (i : FpsControllerInput) (e : Env)
    (dt : ℝ) (jr : Bool) (s : Sim) :
    (stage_wall c i e dt jr s).state.current_wall_jumps = s.state.current_wall_jumps ∨
    (s.state.current_wall_jumps < 3 ∧
     (stage_wall c i e dt jr s).state.current_wall_jumps =
       (s.state.current_wall_jumps + 1) % 2 ^ 8) := by
  by_cases h : ((¬e.on_ground ∧ e.on_wall) ∧ jr = true ∧
      s.state.jump_cooldown.is_complete = true ∧ s.state.current_wall_jumps < 3)
  · right
    refine ⟨h.2.2.2, ?_⟩
    exact stage_wall_fired_cwj c i e dt jr s (by simpa using h.1.1) (by simpa using h.1.2)
      h.2.1 h.2.2.1 h.2.2.2
  · left
    exact stage_wall_not_fired_cwj c i e dt jr s h

end ultrakill

end VM

namespace VM

namespace ultrakill

theorem after_ground_cwj (c : FpsController) (i : FpsControllerInput) (e : Env) (dt : ℝ)
    (s : Sim) :
    (after_ground c i e dt s).state.current_wall_jumps = s.state.current_wall_jumps := by
  unfold after_ground
  rw [stage_ground_cwj]
  exact tick_timers_cwj s.state dt

/-- A freshly reset jump cooldown (duration `0.25`) is not complete. -/
theorem is_complete_of_reset (t : CooldownTimer) (h1 : t.elapsed = 0) (h2 : t.duration = 0.25) :
    t.is_complete = false := by
  unfold CooldownTimer.is_complete
  rw [h1, h2]
  exact decide_eq_false (by norm_num)

theorem before_wall_cwj (c : FpsController) (i : FpsControllerInput) (e : Env) (dt : ℝ)
    (s : Sim) :
    (before_wall c i e dt s).state.current_wall_jumps = 0 ∨
    (before_wall c i e dt s).state.current_wall_jumps = s.state.current_wall_jumps := by
  have hbw : before_wall c i e dt s = stage_jump c i e dt (jr_of c i e dt s)
      (stage_heavy_fall c dt (stage_slam_start c i e
        (stage_landing e (stage_clamp_fall c (after_ground c i e dt s))))) := rfl
  rcases stage_jump_cases c i e dt (jr_of c i e dt s)
      (stage_heavy_fall c dt (stage_slam_start c i e
        (stage_landing e (stage_clamp_fall c (after_ground c i e dt s))))) with hid | ⟨h0, _, _⟩
  · right
    rw [hbw, hid, stage_heavy_fall_cwj, stage_slam_start_cwj, stage_landing_cwj,
      stage_clamp_fall_cwj, after_ground_cwj]
  · left
    rw [hbw]
    exact h0

theorem controller_move_cwj_tail (c : FpsController) (i : FpsControllerInput) (e : Env)
    (dt : ℝ) (s : Sim) :
    (controller_move c i e dt s).state.current_wall_jumps = 0 ∨
    (controller_move c i e dt s).state.current_wall_jumps =
      (stage_wall c i e dt (jr_of c i e dt s) (before_wall c i e dt s)).state.current_wall_jumps := by
  have hcm : controller_move c i e dt s =
      stage_move c i e dt (stage_pre_slide e dt (stage_slide_safety dt (stage_boost_regen dt
        (stage_dash (stage_sliding_update e dt (stage_slide_release i (stage_slide_air_start i e
          (stage_slide_ground_start i e
            (stage_wall c i e dt (jr_of c i e dt s) (before_wall c i e dt s)))))) i)))) := rfl
  rcases stage_move_cwj c i e dt
      (stage_pre_slide e dt (stage_slide_safety dt (stage_boost_regen dt
        (stage_dash (stage_sliding_update e dt (stage_slide_release i (stage_slide_air_start i e
          (stage_slide_ground_start i e
            (stage_wall c i e dt (jr_of c i e dt s) (before_wall c i e dt s)))))) i))))
      with h | h
  · left; rw [hcm]; exact h
  · right
    rw [hcm, h, stage_pre_slide_cwj, stage_slide_safety_cwj, stage_boost_regen_cwj,
      stage_dash_cwj, stage_sliding_update_cwj, stage_slide_release_cwj,
      stage_slide_air_start_cwj, stage_slide_ground_start_cwj]

theorem controller_move_cwj_tail_air (c : FpsController) (i : FpsControllerInput) (e : Env)
    (dt : ℝ) (s : Sim) (hg : e.on_ground = false) :
    (controller_move c i e dt s).state.current_wall_jumps =
      (stage_wall c i e dt (jr_of c i e dt s) (before_wall c i e dt s)).state.current_wall_jumps := by
  have hcm : controller_move c i e dt s =
      stage_move c i e dt (stage_pre_slide e dt (stage_slide_safety dt (stage_boost_regen dt
        (stage_dash (stage_sliding_update e dt (stage_slide_release i (stage_slide_air_start i e
          (stage_slide_ground_start i e
            (stage_wall c i e dt (jr_of c i e dt s) (before_wall c i e dt s)))))) i)))) := rfl
  rw [hcm, stage_move_cwj_air _ _ _ _ _ hg, stage_pre_slide_cwj, stage_slide_safety_cwj,
    stage_boost_regen_cwj, stage_dash_cwj, stage_sliding_update_cwj, stage_slide_release_cwj,
    stage_slide_air_start_cwj, stage_slide_ground_start_cwj]

end ultrakill

end VM

namespace VM

namespace ultrakill

theorem wall_jump_fires_iff (c : FpsController) (i : FpsControllerInput) (e : Env) (dt : ℝ)
    (s : Sim) :
    wall_jump_fires c i e dt s = true ↔
      e.on_ground = false ∧ e.on_wall = true ∧ jr_of c i e dt s = true ∧
      (before_wall c i e dt s).state.jump_cooldown.is_complete = true ∧
      (before_wall c i e dt s).state.current_wall_jumps < 3 := by
  unfold wall_jump_fires
  simp only [Bool.and_eq_true, Bool.not_eq_true', decide_eq_true_eq]
  tauto

/-- C10: the controller never exceeds three consecutive wall jumps. Every
state reachable from the spawn state satisfies `current_wall_jumps ≤ 3`;
one `controller_move` tick preserves `current_wall_jumps ≤ 3`; the wall
jump executes only when `current_wall_jumps < 3` (at the wall block) and
then increments the counter by exactly one; and when it does not execute
the counter is either reset to `0` (ground/coyote jump or ground walking)
or left unchanged. -/
theorem wall_jump_limit :
    (∀ s, Reachable s → s.state.current_wall_jumps ≤ 3) ∧
    (∀ (c : FpsController) (i : FpsControllerInput) (e : Env) (dt : ℝ) (s : Sim),
       s.state.current_wall_jumps ≤ 3 →
       (controller_move c i e dt s).state.current_wall_jumps ≤ 3) ∧
    (∀ (c : FpsController) (i : FpsControllerInput) (e : Env) (dt : ℝ) (s : Sim),
       wall_jump_fires c i e dt s = true →
       s.state.current_wall_jumps < 3 ∧
       (controller_move c i e dt s).state.current_wall_jumps =
         s.state.current_wall_jumps + 1) ∧
    (∀ (c : FpsController) (i : FpsControllerInput) (e : Env) (dt : ℝ) (s : Sim),
       wall_jump_fires c i e dt s = false →
       (controller_move c i e dt s).state.current_wall_jumps = 0 ∨
       (controller_move c i e dt s).state.current_wall_jumps =
         s.state.current_wall_jumps) := by
  have hstep : ∀ (c : FpsController) (i : FpsControllerInput) (e : Env) (dt : ℝ) (s : Sim),
      s.state.current_wall_jumps ≤ 3 →
      (controller_move c i e dt s).state.current_wall_jumps ≤ 3 := by
    intro c i e dt s h3
    rcases controller_move_cwj_tail c i e dt s with h | h
    · omega
    · rw [h]
      rcases stage_wall_cwj c i e dt (jr_of c i e dt s) (before_wall c i e dt s) with
        hw | ⟨hlt, hw⟩
      · rw [hw]
        rcases before_wall_cwj c i e dt s with h0 | h0 <;> omega
      · rw [hw, Nat.mod_eq_of_lt (by omega)]
        omega
  refine ⟨?_, hstep, ?_, ?_⟩
  · intro s hr
    induction hr with
    | refl =>
      show FpsControllerState.new.current_wall_jumps ≤ 3
      norm_num [FpsControllerState.new]
    | tail hst heq ih =>
      rename_i b c'
      obtain ⟨cc, ii, ee, ddt, hEq⟩ := heq
      rw [← hEq]
      exact hstep cc ii ee ddt _ ih
  · intro c i e dt s hf
    rw [wall_jump_fires_iff] at hf
    obtain ⟨hg, hw, hjr, hcompl, hlt⟩ := hf
    have hbw : before_wall c i e dt s = stage_jump c i e dt (jr_of c i e dt s)
        (stage_heavy_fall c dt (stage_slam_start c i e
          (stage_landing e (stage_clamp_fall c (after_ground c i e dt s))))) := rfl
    rcases stage_jump_cases c i e dt (jr_of c i e dt s)
        (stage_heavy_fall c dt (stage_slam_start c i e
          (stage_landing e (stage_clamp_fall c (after_ground c i e dt s))))) with hid | ⟨_, he, hd⟩
    · have hmc : (before_wall c i e dt s).state.current_wall_jumps =
          s.state.current_wall_jumps := by
        rw [hbw, hid, stage_heavy_fall_cwj, stage_slam_start_cwj, stage_landing_cwj,
          stage_clamp_fall_cwj, after_ground_cwj]
      refine ⟨hmc ▸ hlt, ?_⟩
      rw [controller_move_cwj_tail_air c i e dt s hg,
        stage_wall_fired_cwj c i e dt (jr_of c i e dt s) (before_wall c i e dt s)
          hg hw hjr hcompl hlt, hmc, Nat.mod_eq_of_lt (by omega)]
    · exfalso
      have hfalse : (before_wall c i e dt s).state.jump_cooldown.is_complete = false := by
        rw [hbw]
        exact is_complete_of_reset _ he hd
      rw [hcompl] at hfalse
      cases hfalse
  · intro c i e dt s hf
    have hnot : ¬((¬e.on_ground ∧ e.on_wall) ∧ jr_of c i e dt s = true ∧
        (before_wall c i e dt s).state.jump_cooldown.is_complete = true ∧
        (before_wall c i e dt s).state.current_wall_jumps < 3) := by
      intro hco
      have : wall_jump_fires c i e dt s = true := by
        rw [wall_jump_fires_iff]
        exact ⟨Bool.eq_false_iff.mpr hco.1.1, hco.1.2, hco.2.1, hco.2.2.1, hco.2.2.2⟩
      rw [this] at hf
      cases hf
    rcases controller_move_cwj_tail c i e dt s with h | h
    · left; exact h
    · rw [h, stage_wall_not_fired_cwj c i e dt (jr_of c i e dt s) _ hnot]
      rcases before_wall_cwj c i e dt s with h0 | h0
      · left; exact h0
      · right; exact h0

end ultrakill

end VM

namespace VM

namespace ultrakill

theorem tick_timers_fields (s : FpsControllerState) (dt : ℝ) :
    (s.tick_timers dt).jump_cooldown = s.jump_cooldown.tick dt ∧
    (s.tick_timers dt).sliding = s.sliding ∧
    (s.tick_timers dt).boost = s.boost ∧
    (s.tick_timers dt).heavy_fall = s.heavy_fall := by
  unfold FpsControllerState.tick_timers
  refine ⟨?_, ?_, ?_, ?_⟩ <;>
    (repeat' (first | split | dsimp only)
     all_goals rfl)

theorem tick_timers_super (s : FpsControllerState) (dt : ℝ) (h : ¬s.super_jump_chance > 0) :
    (s.tick_timers dt).super_jump_chance = s.super_jump_chance := by
  unfold FpsControllerState.tick_timers
  repeat' (first | split | dsimp only)
  all_goals first | rfl | tauto

set_option maxHeartbeats 2000000 in
theorem stage_ground_state_air (c : FpsController) (i : FpsControllerInput) (e : Env)
    (dt : ℝ) (s : Sim) (hg : e.on_ground = false) :
    (stage_ground c i e dt s).state.jump_cooldown = s.state.jump_cooldown ∧
    (stage_ground c i e dt s).state.sliding = s.state.sliding ∧
    (stage_ground c i e dt s).state.boost = s.state.boost ∧
    (stage_ground c i e dt s).state.heavy_fall = s.state.heavy_fall ∧
    (stage_ground c i e dt s).state.super_jump_chance = s.state.super_jump_chance := by
  unfold stage_ground
  rw [if_neg (by simp [hg])]
  refine ⟨?_, ?_, ?_, ?_, ?_⟩ <;>
    (repeat' (first | split | dsimp only)
     all_goals rfl)

theorem stage_clamp_fall_state (c : FpsController) (s : Sim) :
    (stage_clamp_fall c s).state = s.state := by
  unfold stage_clamp_fall
  split <;> rfl

theorem stage_landing_id (e : Env) (s : Sim) (hg : e.on_ground = false) :
    stage_landing e s = s := by
  unfold stage_landing
  rw [if_neg (by simp [hg])]

theorem stage_slam_start_id (c : FpsController) (i : FpsControllerInput) (e : Env) (s : Sim)
    (h : i.slide.pressed = false) : stage_slam_start c i e s = s := by
  unfold stage_slam_start
  rw [if_neg (by simp [h])]

theorem stage_heavy_fall_id (c : FpsController) (dt : ℝ) (s : Sim)
    (h : s.state.heavy_fall = false) : stage_heavy_fall c dt s = s := by
  unfold stage_heavy_fall
  rw [if_neg (by simp [h])]

theorem stage_wall_id (c : FpsController) (i : FpsControllerInput) (e : Env) (dt : ℝ)
    (jr : Bool) (s : Sim) (h : e.on_wall = false) : stage_wall c i e dt jr s = s := by
  unfold stage_wall
  rw [if_neg (by simp [h])]

theorem stage_slide_ground_start_id (i : FpsControllerInput) (e : Env) (s : Sim)
    (h : i.slide.pressed = false) : stage_slide_ground_start i e s = s := by
  unfold stage_slide_ground_start
  rw [if_neg (by simp [h])]

theorem stage_slide_air_start_id (i : FpsControllerInput) (e : Env) (s : Sim)
    (h : i.slide.pressed = false) : stage_slide_air_start i e s = s := by
  unfold stage_slide_air_start
  rw [if_neg (by simp [h])]

theorem stage_slide_release_id (i : FpsControllerInput) (s : Sim)
    (h : i.slide.released = false) : stage_slide_release i s = s := by
  unfold stage_slide_release
  rw [if_neg (by simp [h])]

theorem stage_sliding_update_id (e : Env) (dt : ℝ) (s : Sim)
    (h : s.state.sliding = false) : stage_sliding_update e dt s = s := by
  unfold stage_sliding_update
  rw [if_neg (by simp [h])]

theorem stage_dash_id (s : Sim) (i : FpsControllerInput)
    (h : i.dash.pressed = false) : stage_dash s i = s := by
  unfold stage_dash
  rw [if_neg (by simp [h])]

theorem stage_slide_safety_id (dt : ℝ) (s : Sim)
    (h : s.state.sliding = false) : stage_slide_safety dt s = s := by
  unfold stage_slide_safety
  rw [if_neg (by simp [h])]

theorem stage_boost_regen_fields (dt : ℝ) (s : Sim) :
    (stage_boost_regen dt s).state.jump_timer = s.state.jump_timer ∧
    (stage_boost_regen dt s).state.jumping = s.state.jumping ∧
    (stage_boost_regen dt s).state.falling = s.state.falling ∧
    (stage_boost_regen dt s).state.jump_buffer_timer = s.state.jump_buffer_timer ∧
    (stage_boost_regen dt s).state.jump_cooldown = s.state.jump_cooldown ∧
    (stage_boost_regen dt s).state.sliding = s.state.sliding ∧
    (stage_boost_regen dt s).state.heavy_fall = s.state.heavy_fall ∧
    (stage_boost_regen dt s).state.boost = s.state.boost ∧
    (stage_boost_regen dt s).linvel = s.linvel := by
  unfold stage_boost_regen
  refine ⟨?_, ?_, ?_, ?_, ?_, ?_, ?_, ?_, ?_⟩ <;>
    (repeat' (first | split | dsimp only)
     all_goals rfl)

theorem stage_pre_slide_fields (e : Env) (dt : ℝ) (s : Sim)
    (hs : s.state.sliding = false) (hh : s.state.heavy_fall = false) :
    (stage_pre_slide e dt s).state.jump_timer = s.state.jump_timer ∧
    (stage_pre_slide e dt s).state.jumping = s.state.jumping ∧
    (stage_pre_slide e dt s).state.falling = s.state.falling ∧
    (stage_pre_slide e dt s).state.jump_buffer_timer = s.state.jump_buffer_timer ∧
    (stage_pre_slide e dt s).state.jump_cooldown = s.state.jump_cooldown ∧
    (stage_pre_slide e dt s).state.sliding = s.state.sliding ∧
    (stage_pre_slide e dt s).state.boost = s.state.boost ∧
    (stage_pre_slide e dt s).linvel = s.linvel := by
  unfold stage_pre_slide
  rw [if_pos (by simp [hs]), if_neg (by simp [hh])]
  refine ⟨?_, ?_, ?_, ?_, ?_, ?_, ?_, ?_⟩ <;>
    (repeat' (first | split | dsimp only)
     all_goals rfl)

theorem stage_move_air (c : FpsController) (i : FpsControllerInput) (e : Env) (dt : ℝ)
    (s : Sim) (hb : s.state.boost = false) (hg : e.on_ground = false) :
    (stage_move c i e dt s).state = s.state ∧
    (stage_move c i e dt s).linvel.y = s.linvel.y - c.gravity * dt := by
  unfold stage_move
  rw [if_pos (by simp [hb]), if_neg (by simp [hg])]
  exact ⟨rfl, rfl⟩

theorem cooldown_tick_complete (t : CooldownTimer) (dt : ℝ)
    (hf : t.finished = false) (hd : t.duration < t.elapsed + dt) :
    (t.tick dt).is_complete = true := by
  unfold CooldownTimer.tick
  rw [if_neg (by simp [hf])]
  dsimp only
  split
  · rename_i h
    unfold CooldownTimer.is_complete at h ⊢
    exact h
  · rename_i h
    unfold CooldownTimer.is_complete at h ⊢
    exact absurd (decide_eq_true (by exact hd)) (by simpa using h)

theorem jr_of_true (c : FpsController) (i : FpsControllerInput) (e : Env) (dt : ℝ) (s : Sim)
    (hp : i.jump.pressed = true) : jr_of c i e dt s = true := by
  unfold jr_of jump_requested
  simp [hp]

theorem stage_jump_fired (c : FpsController) (i : FpsControllerInput) (e : Env) (dt : ℝ)
    (jr : Bool) (m : Sim)
    (hjr : jr = true) (hg : e.on_ground = false) (hw : e.on_wall = false)
    (hc : m.state.coyote_timer > 0)
    (hcompl : m.state.jump_cooldown.is_complete = true)
    (hsl : m.state.sliding = false) (hb : m.state.boost = false)
    (hsup : ¬m.state.super_jump_chance > 0) :
    stage_jump c i e dt jr m =
      { m with
        state := { m.state with
                   jump_timer := c.jump_time
                   jump_buffer_timer := 0
                   current_wall_jumps := 0
                   cling_fade := 0
                   jumping := true
                   falling := true
                   not_jumping_cooldown := m.state.not_jumping_cooldown.reset
                   jump_cooldown := m.state.jump_cooldown.reset_with_duration 0.25
                   boost := false }
        linvel := ⟨m.linvel.x, c.jump_speed, m.linvel.z⟩ } := by
  unfold stage_jump
  rw [if_pos ⟨Or.inl ⟨by simp [hjr], by simp [hg], hc, by simp [hw]⟩, by simp [hcompl]⟩]
  dsimp only
  rw [if_neg (by simp [hsl]), if_neg (by simp [hb]), if_neg (fun hcon => hsup hcon.1)]

end ultrakill

end VM

namespace VM

namespace ultrakill

/-- C7: coyote time. On every `controller_move` tick, the coyote timer is
reset to `coyote_timer_duration` whenever the downward capsule cast finds
ground, and decays by `dt` (clamped at `0`) while airborne; and a jump
request made while airborne, off walls, with a live coyote timer and a
complete jump cooldown is honored exactly like a ground jump: the jump
timer is set to `jump_time`, `jumping`/`falling` are set, the jump buffer
and wall-jump counter are cleared, the cooldown is reset to `0.25`, and the
vertical velocity follows the normal-jump path (`jump_speed`, with this
tick's gravity applied by the air-move step). -/
theorem coyote_time_spec :
    (∀ (c : FpsController) (i : FpsControllerInput) (e : Env) (dt : ℝ) (s : Sim),
       (controller_move c i e dt s).state.coyote_timer =
         if e.on_ground then c.coyote_timer_duration else max (s.state.coyote_timer - dt) 0) ∧
    (∀ (c : FpsController) (i : FpsControllerInput) (e : Env) (dt : ℝ) (s : Sim),
       e.on_ground = false → e.on_wall = false →
       i.jump.pressed = true → i.slide.pressed = false → i.slide.released = false →
       i.dash.pressed = false →
       dt < s.state.coyote_timer →
       s.state.jump_cooldown.finished = false →
       s.state.jump_cooldown.duration < s.state.jump_cooldown.elapsed + dt →
       s.state.sliding = false → s.state.boost = false →
       ¬s.state.super_jump_chance > 0 → s.state.heavy_fall = false →
       ((controller_move c i e dt s).state.jump_timer = c.jump_time ∧
        (controller_move c i e dt s).state.jumping = true ∧
        (controller_move c i e dt s).state.falling = true ∧
        (controller_move c i e dt s).state.jump_buffer_timer = 0 ∧
        (controller_move c i e dt s).state.current_wall_jumps = 0 ∧
        (controller_move c i e dt s).state.jump_cooldown.elapsed = 0 ∧
        (controller_move c i e dt s).state.jump_cooldown.duration = 0.25 ∧
        (controller_move c i e dt s).linvel.y = c.jump_speed - c.gravity * dt)) := by
  constructor
  · intro c i e dt s
    unfold controller_move before_wall after_ground
    simp only [stage_move_coyote, stage_pre_slide_coyote, stage_slide_safety_coyote,
      stage_boost_regen_coyote, stage_dash_coyote, stage_sliding_update_coyote,
      stage_slide_release_coyote, stage_slide_air_start_coyote, stage_slide_ground_start_coyote,
      stage_wall_coyote, stage_jump_coyote, stage_heavy_fall_coyote, stage_slam_start_coyote,
      stage_landing_coyote, stage_clamp_fall_coyote, stage_ground_coyote, tick_timers_coyote]
  · intro c i e dt s hg hw hp hslp hslr hdp hcoy hcf hcd hsl hb hsup hhf
    have hA := stage_ground_state_air c i e dt { s with state := s.state.tick_timers dt } hg
    have hT := tick_timers_fields s.state dt
    have hB : (stage_clamp_fall c (after_ground c i e dt s)).state =
        (after_ground c i e dt s).state := stage_clamp_fall_state c _
    have hB_cool : (stage_clamp_fall c (after_ground c i e dt s)).state.jump_cooldown =
        s.state.jump_cooldown.tick dt := by
      rw [hB]
      show (stage_ground c i e dt { s with state := s.state.tick_timers dt }).state.jump_cooldown = _
      rw [hA.1]
      exact hT.1
    have hB_sliding : (stage_clamp_fall c (after_ground c i e dt s)).state.sliding = false := by
      rw [hB]
      show (stage_ground c i e dt { s with state := s.state.tick_timers dt }).state.sliding = _
      rw [hA.2.1]
      show (s.state.tick_timers dt).sliding = false
      rw [hT.2.1]
      exact hsl
    have hB_boost : (stage_clamp_fall c (after_ground c i e dt s)).state.boost = false := by
      rw [hB]
      show (stage_ground c i e dt { s with state := s.state.tick_timers dt }).state.boost = _
      rw [hA.2.2.1]
      show (s.state.tick_timers dt).boost = false
      rw [hT.2.2.1]
      exact hb
    have hB_heavy : (stage_clamp_fall c (after_ground c i e dt s)).state.heavy_fall = false := by
      rw [hB]
      show (stage_ground c i e dt { s with state := s.state.tick_timers dt }).state.heavy_fall = _
      rw [hA.2.2.2.1]
      show (s.state.tick_timers dt).heavy_fall = false
      rw [hT.2.2.2]
      exact hhf
    have hB_super : ¬(stage_clamp_fall c (after_ground c i e dt s)).state.super_jump_chance > 0 := by
      rw [hB]
      show ¬(stage_ground c i e dt { s with state := s.state.tick_timers dt }).state.super_jump_chance > 0
      rw [hA.2.2.2.2]
      show ¬(s.state.tick_timers dt).super_jump_chance > 0
      rw [tick_timers_super s.state dt hsup]
      exact hsup
    have hB_coyote : (stage_clamp_fall c (after_ground c i e dt s)).state.coyote_timer > 0 := by
      rw [hB]
      show (stage_ground c i e dt { s with state := s.state.tick_timers dt }).state.coyote_timer > 0
      rw [stage_ground_coyote, if_neg (by simp [hg])]
      refine lt_max_iff.mpr (Or.inl ?_)
      show 0 < ({ s with state := s.state.tick_timers dt } : Sim).state.coyote_timer - dt
      rw [show ({ s with state := s.state.tick_timers dt } : Sim).state.coyote_timer =
        s.state.coyote_timer from tick_timers_coyote s.state dt]
      exact sub_pos.mpr hcoy
    have hB_compl : (stage_clamp_fall c (after_ground c i e dt s)).state.jump_cooldown.is_complete
        = true := by
      rw [hB_cool]
      exact cooldown_tick_complete _ _ hcf hcd
    have hbw : before_wall c i e dt s = stage_jump c i e dt (jr_of c i e dt s)
        (stage_clamp_fall c (after_ground c i e dt s)) := by
      show stage_jump c i e dt (jr_of c i e dt s)
          (stage_heavy_fall c dt (stage_slam_start c i e
            (stage_landing e (stage_clamp_fall c (after_ground c i e dt s))))) = _
      rw [stage_landing_id e _ hg, stage_slam_start_id c i e _ hslp,
        stage_heavy_fall_id c dt _ hB_heavy]
    have hF := stage_jump_fired c i e dt (jr_of c i e dt s)
      (stage_clamp_fall c (after_ground c i e dt s))
      (jr_of_true c i e dt s hp) hg hw hB_coyote hB_compl hB_sliding hB_boost hB_super
    have hcm : controller_move c i e dt s =
        stage_move c i e dt (stage_pre_slide e dt (stage_slide_safety dt (stage_boost_regen dt
          (stage_dash (stage_sliding_update e dt (stage_slide_release i (stage_slide_air_start i e
            (stage_slide_ground_start i e
              (stage_wall c i e dt (jr_of c i e dt s) (before_wall c i e dt s)))))) i)))) := rfl
    rw [hbw, hF] at hcm
    rw [stage_wall_id c i e dt _ _ hw, stage_slide_ground_start_id i e _ hslp,
      stage_slide_air_start_id i e _ hslp, stage_slide_release_id i _ hslr,
      stage_sliding_update_id e dt _ (by exact hB_sliding),
      stage_dash_id _ i hdp,
      stage_slide_safety_id dt _ (by
        exact ((stage_boost_regen_fields dt _).2.2.2.2.2.1).trans (by exact hB_sliding))] at hcm
    have hJ := stage_boost_regen_fields dt
      { stage_clamp_fall c (after_ground c i e dt s) with
        state := { (stage_clamp_fall c (after_ground c i e dt s)).state with
                   jump_timer := c.jump_time
                   jump_buffer_timer := 0
                   current_wall_jumps := 0
                   cling_fade := 0
                   jumping := true
                   falling := true
                   not_jumping_cooldown := (stage_clamp_fall c
                     (after_ground c i e dt s)).state.not_jumping_cooldown.reset
                   jump_cooldown := (stage_clamp_fall c
                     (after_ground c i e dt s)).state.jump_cooldown.reset_with_duration 0.25
                   boost := false }
        linvel := ⟨(stage_clamp_fall c (after_ground c i e dt s)).linvel.x, c.jump_speed,
          (stage_clamp_fall c (after_ground c i e dt s)).linvel.z⟩ }
    have hL := stage_pre_slide_fields e dt (stage_boost_regen dt _)
      (hJ.2.2.2.2.2.1.trans (by exact hB_sliding))
      (hJ.2.2.2.2.2.2.1.trans (by exact hB_heavy))
    have hM := stage_move_air c i e dt (stage_pre_slide e dt (stage_boost_regen dt _))
      (hL.2.2.2.2.2.2.1.trans (hJ.2.2.2.2.2.2.2.1.trans (by exact rfl))) hg
    rw [hcm]
    refine ⟨?_, ?_, ?_, ?_, ?_, ?_, ?_, ?_⟩
    · rw [hM.1, hL.1, hJ.1]
    · rw [hM.1, hL.2.1, hJ.2.1]
    · rw [hM.1, hL.2.2.1, hJ.2.2.1]
    · rw [hM.1, hL.2.2.2.1, hJ.2.2.2.1]
    · show (stage_move c i e dt _).state.current_wall_jumps = 0
      rw [hM.1, stage_pre_slide_cwj, stage_boost_regen_cwj]
    · rw [hM.1, hL.2.2.2.2.1, hJ.2.2.2.2.1]
      rfl
    · rw [hM.1, hL.2.2.2.2.1, hJ.2.2.2.2.1]
      rfl
    · rw [hM.2, hL.2.2.2.2.2.2.2, hJ.2.2.2.2.2.2.2.2]
end ultrakill

end VM

namespace VM

namespace ultrakill

/-- Witness for C10: the spawn state is reachable and satisfies the bound. -/
theorem wall_jump_limit_witness : initSim.state.current_wall_jumps ≤ 3 :=
  wall_jump_limit.1 initSim Relation.ReflTransGen.refl

/-- Witness for C7: a concrete airborne tick with a live coyote timer, jump
pressed, and a complete cooldown performs the coyote jump. -/
theorem coyote_time_spec_witness :
    ((0.1 : ℝ) < simCoyote.state.coyote_timer ∧
     simCoyote.state.jump_cooldown.finished = false ∧
     simCoyote.state.jump_cooldown.duration <
       simCoyote.state.jump_cooldown.elapsed + 0.1) ∧
    (controller_move FpsControllerDefault inputJump envAir 0.1 simCoyote).state.jumping = true ∧
    (controller_move FpsControllerDefault inputJump envAir 0.1 simCoyote).linvel.y =
      FpsControllerDefault.jump_speed - FpsControllerDefault.gravity * 0.1 := by
  have h1 : (0.1 : ℝ) < simCoyote.state.coyote_timer := by
    show (0.1 : ℝ) < 0.2
    norm_num
  have h2 : simCoyote.state.jump_cooldown.finished = false := rfl
  have h3 : simCoyote.state.jump_cooldown.duration <
      simCoyote.state.jump_cooldown.elapsed + 0.1 := by
    show (0.2 : ℝ) < 0.3 + 0.1
    norm_num
  have h4 : ¬simCoyote.state.super_jump_chance > 0 := by
    show ¬(0 : ℝ) > 0
    norm_num
  have hmain := coyote_time_spec.2 FpsControllerDefault inputJump envAir 0.1 simCoyote
    rfl rfl rfl rfl rfl rfl h1 h2 h3 rfl rfl h4 rfl
  exact ⟨⟨h1, h2, h3⟩, hmain.2.1, hmain.2.2.2.2.2.2.2⟩

end ultrakill

end VM

namespace VM

theorem pmultispace1_consumes (s : List Char) (a : List Char) (r : List Char)
    (h : pmultispace1 s = some (a, r)) : r.length < s.length := by
  unfold pmultispace1 at h
  dsimp only at h
  split at h
  · exact absurd h (by simp)
  · rename_i he
    cases h
    have h1 : (s.takeWhile is_nom_space).length ≤ s.length :=
      (List.takeWhile_sublist _).length_le
    have h2 : 0 < (s.takeWhile is_nom_space).length := by
      cases hw : s.takeWhile is_nom_space with
      | nil => rw [hw] at he; simp at he
      | cons c cs => simp [hw]
    rw [List.length_drop]
    omega

theorem ptag_sub (t s : List Char) (a r : List Char) (h : ptag t s = some (a, r)) :
    r.length ≤ s.length := by
  unfold ptag at h
  split at h
  · cases h
    rw [List.length_drop]
    omega
  · exact absurd h (by simp)

theorem pnot_line_ending_sub (s : List Char) (a r : List Char)
    (h : pnot_line_ending s = some (a, r)) : r.length ≤ s.length := by
  unfold pnot_line_ending at h
  dsimp only at h
  have hd : (s.drop (s.takeWhile (fun c => !(c == '\r' || c == '\n'))).length).length ≤ s.length := by
    rw [List.length_drop]; omega
  split at h
  · split at h
    · cases h; exact hd
    · exact absurd h (by simp)
  · cases h; exact hd

theorem pline_ending_consumes (s : List Char) (a r : List Char)
    (h : pline_ending s = some (a, r)) : r.length < s.length := by
  unfold pline_ending at h
  split at h
  · cases h; simp
  · cases h
    simp
    omega
  · exact absurd h (by simp)

theorem comment_sub (s : List Char) (a r : List Char) (h : comment s = some (a, r)) :
    r.length ≤ s.length := by
  unfold comment ppreceded at h
  cases h1 : ptag ['/', '/'] s with
  | none => rw [h1] at h; exact absurd h (by simp)
  | some v =>
    rw [h1] at h
    exact le_trans (pnot_line_ending_sub _ _ _ h) (ptag_sub _ _ _ _ h1)

theorem sep_item_consumes (s : List Char) (a : List Char) (r : List Char)
    (h : palt pmultispace1 (pterminated comment pline_ending) s = some (a, r)) :
    r.length < s.length := by
  unfold palt at h
  cases h1 : pmultispace1 s with
  | some v => rw [h1] at h; cases h; exact pmultispace1_consumes _ _ _ h1
  | none =>
    rw [h1] at h
    dsimp only at h
    unfold pterminated at h
    cases h2 : comment s with
    | none => rw [h2] at h; exact absurd h (by simp)
    | some v2 =>
      rw [h2] at h
      dsimp only at h
      obtain ⟨c1, s1⟩ := v2
      cases h3 : pline_ending s1 with
      | none => rw [h3] at h; exact absurd h (by simp)
      | some v3 =>
        rw [h3] at h
        dsimp only at h
        obtain ⟨l, s2⟩ := v3
        cases h
        exact lt_of_lt_of_le (pline_ending_consumes _ _ _ h3) (comment_sub _ _ _ h2)

theorem many0_aux_total (p : Parser α)
    (hp : ∀ s a r, p s = some (a, r) → r.length < s.length) :
    ∀ (fuel : ℕ) (s : List Char), s.length < fuel →
      ∃ l r, many0_aux p fuel s = some (l, r) ∧ r.length ≤ s.length := by
  intro fuel
  induction fuel with
  | zero => intro s h; omega
  | succ n ih =>
    intro s h
    cases hps : p s with
    | none =>
      refine ⟨[], s, ?_, le_refl _⟩
      show many0_aux p (n + 1) s = some ([], s)
      simp only [many0_aux]
      rw [hps]
    | some v =>
      obtain ⟨a, s1⟩ := v
      have hlen := hp s a s1 hps
      obtain ⟨l, r, hm, hr⟩ := ih s1 (by omega)
      refine ⟨a :: l, r, ?_, by omega⟩
      show many0_aux p (n + 1) s = some (a :: l, r)
      simp only [many0_aux]
      rw [hps]
      dsimp only
      rw [if_neg (by omega), hm]

theorem separator_total (s : List Char) : ∃ t r, separator s = some (t, r) := by
  unfold separator precognize many0
  obtain ⟨l, r, hm, _⟩ := many0_aux_total _ sep_item_consumes (s.length + 1) s (by omega)
  rw [hm]
  exact ⟨_, _, rfl⟩

end VM

namespace VM

theorem pmap_eq_some (f : α → β) (p : Parser α) (s : List Char) (b : β) (r : List Char) :
    pmap f p s = some (b, r) ↔ ∃ a, p s = some (a, r) ∧ b = f a := by
  unfold pmap
  cases h : p s with
  | none => simp
  | some v =>
    obtain ⟨a, s1⟩ := v
    simp only [Option.some.injEq, Prod.mk.injEq]
    aesop

theorem ppair_eq_some (p : Parser α) (q : Parser β) (s : List Char) (ab : α × β)
    (r : List Char) :
    ppair p q s = some (ab, r) ↔
      ∃ s1, p s = some (ab.1, s1) ∧ q s1 = some (ab.2, r) := by
  unfold ppair
  cases h : p s with
  | none => simp
  | some v =>
    obtain ⟨a, s1⟩ := v
    cases h2 : q s1 with
    | none => simp [h2]
    | some v2 =>
      obtain ⟨b, s2⟩ := v2
      simp only [Option.some.injEq, Prod.mk.injEq]
      cases ab
      aesop

theorem ppreceded_eq_some (p : Parser α) (q : Parser β) (s : List Char) (b : β)
    (r : List Char) :
    ppreceded p q s = some (b, r) ↔ ∃ a s1, p s = some (a, s1) ∧ q s1 = some (b, r) := by
  unfold ppreceded
  cases h : p s with
  | none => simp
  | some v =>
    obtain ⟨a, s1⟩ := v
    constructor
    · intro hh
      exact ⟨a, s1, rfl, hh⟩
    · rintro ⟨a', s1', h1', h2'⟩
      cases h1'
      exact h2'

theorem pterminated_eq_some (p : Parser α) (q : Parser β) (s : List Char) (a : α)
    (r : List Char) :
    pterminated p q s = some (a, r) ↔
      ∃ s1 b, p s = some (a, s1) ∧ q s1 = some (b, r) := by
  unfold pterminated
  cases h : p s with
  | none => simp
  | some v =>
    obtain ⟨a', s1⟩ := v
    cases h2 : q s1 with
    | none => simp [h2]
    | some v2 =>
      obtain ⟨b, s2⟩ := v2
      simp only [Option.some.injEq, Prod.mk.injEq]
      aesop

theorem popt_eq_some (p : Parser α) (s : List Char) (o : Option α) (r : List Char) :
    popt p s = some (o, r) ↔
      (∃ a, p s = some (a, r) ∧ o = some a) ∨ (p s = none ∧ o = none ∧ r = s) := by
  unfold popt
  cases h : p s with
  | none => simp; aesop
  | some v =>
    obtain ⟨a, s1⟩ := v
    simp only [Option.some.injEq, Prod.mk.injEq]
    aesop

theorem many1_eq_some (p : Parser α) (s : List Char) (l : List α) (r : List Char) :
    many1 p s = some (l, r) ↔
      ∃ a s1 l', p s = some (a, s1) ∧ many0 p s1 = some (l', r) ∧ l = a :: l' := by
  unfold many1
  cases h : p s with
  | none => simp
  | some v =>
    obtain ⟨a, s1⟩ := v
    cases h2 : many0 p s1 with
    | none => simp [h2]
    | some v2 =>
      obtain ⟨l', s2⟩ := v2
      simp only [Option.some.injEq, Prod.mk.injEq]
      aesop

end VM

namespace VM

/-- C4: the top-level `valve_maps::parse` succeeds exactly when the whole
input is consumed by the map grammar: optional leading whitespace/comments,
then a non-empty sequence of brace-delimited entities (each parsed by
`MapEntity::parse`: quoted key/value fields then zero-or-more brush
blocks); trailing unconsumed input fails, and an input with no entity
(such as the empty input) fails. -/
theorem parse_whole_input :
    (∀ (s : List Char) (m : formats.Map), parse s = some m ↔
       formats.Map.parse s = some (m, [])) ∧
    (∀ (s : List Char) (m : formats.Map) (rest : List Char),
       formats.Map.parse s = some (m, rest) → rest ≠ [] → parse s = none) ∧
    (∀ (s : List Char) (m : formats.Map), parse s = some m → m.entities ≠ []) ∧
    (∀ (s : List Char) (m : formats.Map),
       parse s = some m ↔ ∃ t r, separator s = some (t, r) ∧
         many1 (maybe_sep_terminated formats.MapEntity.parse) r = some (m.entities, [])) ∧
    parse [] = none := by
  have hiff : ∀ (s : List Char) (m : formats.Map), parse s = some m ↔
      formats.Map.parse s = some (m, []) := by
    intro s m
    unfold parse all_consuming
    cases h : formats.Map.parse s with
    | none => simp
    | some v =>
      obtain ⟨m', rest⟩ := v
      by_cases hr : rest = []
      · subst hr
        simp
      · dsimp only
        rw [if_neg (by simpa using hr)]
        simp only [Option.some.injEq, Prod.mk.injEq]
        constructor
        · intro hh; exact absurd hh (by simp)
        · rintro ⟨_, hrr⟩; exact absurd hrr hr
  have hchar : ∀ (s : List Char) (m : formats.Map),
      parse s = some m ↔ ∃ t r, separator s = some (t, r) ∧
        many1 (maybe_sep_terminated formats.MapEntity.parse) r = some (m.entities, []) := by
    intro s m
    obtain ⟨t, r, hsep⟩ := separator_total s
    have hpopt : popt separator s = some (some t, r) := by
      unfold popt
      rw [hsep]
    rw [hiff]
    constructor
    · intro h
      unfold formats.Map.parse at h
      rw [ppreceded_eq_some] at h
      obtain ⟨o, s1, h1, h2⟩ := h
      rw [hpopt] at h1
      cases h1
      rw [pmap_eq_some] at h2
      obtain ⟨l, hl, hm⟩ := h2
      subst hm
      exact ⟨t, r, hsep, hl⟩
    · rintro ⟨t', r', hsep', hmany⟩
      rw [hsep] at hsep'
      cases hsep'
      unfold formats.Map.parse
      rw [ppreceded_eq_some]
      refine ⟨some t, r, hpopt, ?_⟩
      rw [pmap_eq_some]
      refine ⟨m.entities, hmany, ?_⟩
      cases m
      rfl
  refine ⟨hiff, ?_, ?_, hchar, ?_⟩
  · intro s m rest h hne
    unfold parse all_consuming
    rw [h]
    dsimp only
    rw [if_neg (by simpa using hne)]
  · intro s m h
    rw [hchar] at h
    obtain ⟨t, r, _, hmany⟩ := h
    rw [many1_eq_some] at hmany
    obtain ⟨a, s1, l', _, _, hl⟩ := hmany
    rw [hl]
    simp
  · rfl

end VM

namespace VM

/-- Witness for C4: the minimal map `"{}"` parses to a single entity with no
fields and no brushes, and its entity list is non-empty. -/
theorem parse_whole_input_witness :
    parse ("\x7b\x7d".toList) = some ⟨[⟨⟨[]⟩, []⟩]⟩ ∧
    formats.Map.parse ("\x7b\x7d".toList) = some (⟨[⟨⟨[]⟩, []⟩]⟩, []) ∧
    (⟨[⟨⟨[]⟩, []⟩]⟩ : formats.Map).entities ≠ [] := by
  have h : parse ("\x7b\x7d".toList) = some ⟨[⟨⟨[]⟩, []⟩]⟩ := by rfl
  exact ⟨h, (parse_whole_input.1 _ _).mp h, parse_whole_input.2.2.1 _ _ h⟩

end VM

namespace VM

theorem pchar_eq_some (c : Char) (s : List Char) (a : Char) (r : List Char) :
    pchar c s = some (a, r) ↔ a = c ∧ s = c :: r := by
  unfold pchar
  cases s with
  | nil => simp
  | cons c' rest =>
    by_cases h : c' = c
    · subst h
      simp only [if_pos rfl, Option.some.injEq, Prod.mk.injEq, List.cons.injEq]
      aesop
    · simp only [if_neg h, List.cons.injEq]
      aesop

theorem pdelimited_eq_some (l : Parser α) (p : Parser β) (q : Parser γ) (s : List Char)
    (b : β) (rest : List Char) :
    pdelimited l p q s = some (b, rest) ↔
      ∃ a s1 s2 c, l s = some (a, s1) ∧ p s1 = some (b, s2) ∧ q s2 = some (c, rest) := by
  unfold pdelimited
  rw [ppreceded_eq_some]
  constructor
  · rintro ⟨a, s1, h1, h2⟩
    rw [pterminated_eq_some] at h2
    obtain ⟨s2, c, h3, h4⟩ := h2
    exact ⟨a, s1, s2, c, h1, h3, h4⟩
  · rintro ⟨a, s1, s2, c, h1, h2, h3⟩
    refine ⟨a, s1, h1, ?_⟩
    rw [pterminated_eq_some]
    exact ⟨s2, c, h2, h3⟩

namespace formats

theorem many_fixed3_eq_some (p : Parser α) (s : List Char) (t : α × α × α)
    (rest : List Char) :
    many_fixed3 p s = some (t, rest) ↔
      ∃ a s1 b s2 c, p s = some (a, s1) ∧ p s1 = some (b, s2) ∧
        p s2 = some (c, rest) ∧ t = (a, b, c) := by
  unfold many_fixed3
  cases h1 : p s with
  | none => simp
  | some v1 =>
    obtain ⟨a, s1⟩ := v1
    dsimp only
    cases h2 : p s1 with
    | none => simp [h2]
    | some v2 =>
      obtain ⟨b, s2⟩ := v2
      dsimp only
      cases h3 : p s2 with
      | none => simp [h2, h3]
      | some v3 =>
        obtain ⟨c, s3⟩ := v3
        dsimp only
        constructor
        · intro h
          rw [Option.some.injEq, Prod.mk.injEq] at h
          obtain ⟨ht, hr⟩ := h
          subst hr
          exact ⟨a, s1, b, s2, c, rfl, h2, h3, ht.symm⟩
        · rintro ⟨a', s1', b', s2', c', hA, hB, hC, ht⟩
          rw [Option.some.injEq, Prod.mk.injEq] at hA
          obtain ⟨ha, hs⟩ := hA
          subst ha
          subst hs
          rw [h2, Option.some.injEq, Prod.mk.injEq] at hB
          obtain ⟨hb, hs2⟩ := hB
          subst hb
          subst hs2
          rw [h3, Option.some.injEq, Prod.mk.injEq] at hC
          obtain ⟨hc, hs3⟩ := hC
          subst hc
          subst hs3
          rw [ht]

theorem Vector3_parse_eq_some (s : List Char) (v : Vector3) (rest : List Char) :
    Vector3.parse s = some (v, rest) ↔
      ∃ x s1 t1 s2 y s3 t2 s4 z,
        pfloat s = some (x, s1) ∧ separator s1 = some (t1, s2) ∧
        pfloat s2 = some (y, s3) ∧ separator s3 = some (t2, s4) ∧
        pfloat s4 = some (z, rest) ∧ v = ⟨x, y, z⟩ := by
  unfold Vector3.parse sep_terminated
  rw [pmap_eq_some]
  constructor
  · rintro ⟨⟨x, y, z⟩, h1, h2⟩
    rw [ppair_eq_some] at h1
    obtain ⟨sM, hA, hB⟩ := h1
    rw [pterminated_eq_some] at hA
    obtain ⟨sA, t1, hx, hsepA⟩ := hA
    rw [ppair_eq_some] at hB
    obtain ⟨sN, hC, hD⟩ := hB
    rw [pterminated_eq_some] at hC
    obtain ⟨sB, t2, hy, hsepB⟩ := hC
    exact ⟨x, sA, t1, sM, y, sB, t2, sN, z, hx, hsepA, hy, hsepB, hD, h2⟩
  · rintro ⟨x, s1, t1, s2, y, s3, t2, s4, z, h1, h2, h3, h4, h5, h6⟩
    refine ⟨(x, (y, z)), ?_, h6⟩
    rw [ppair_eq_some]
    refine ⟨s2, ?_, ?_⟩
    · rw [pterminated_eq_some]
      exact ⟨s1, t1, h1, h2⟩
    · rw [ppair_eq_some]
      refine ⟨s4, ?_, h5⟩
      rw [pterminated_eq_some]
      exact ⟨s3, t2, h3, h4⟩

theorem Scale_parse_eq_some (s : List Char) (sc : Scale) (rest : List Char) :
    Scale.parse s = some (sc, rest) ↔
      ∃ u s1 t1 s2 v,
        pfloat s = some (u, s1) ∧ separator s1 = some (t1, s2) ∧
        pfloat s2 = some (v, rest) ∧ sc = ⟨u, v⟩ := by
  unfold Scale.parse Vec2.parse sep_terminated
  rw [pmap_eq_some]
  constructor
  · rintro ⟨a, h1, h2⟩
    rw [pmap_eq_some] at h1
    obtain ⟨⟨u, v⟩, h1, h3⟩ := h1
    rw [ppair_eq_some] at h1
    obtain ⟨sM, hA, hB⟩ := h1
    rw [pterminated_eq_some] at hA
    obtain ⟨sA, t1, hu, hsep⟩ := hA
    refine ⟨u, sA, t1, sM, v, hu, hsep, hB, ?_⟩
    rw [h2, h3]
  · rintro ⟨u, s1, t1, s2, v, h1, h2, h3, h4⟩
    refine ⟨⟨u, v⟩, ?_, h4⟩
    rw [pmap_eq_some]
    refine ⟨(u, v), ?_, rfl⟩
    rw [ppair_eq_some]
    refine ⟨s2, ?_, h3⟩
    rw [pterminated_eq_some]
    exact ⟨s1, t1, h1, h2⟩

theorem Axis_parse_eq_some (s : List Char) (ax : Axis) (rest : List Char) :
    Axis.parse s = some (ax, rest) ↔
      ∃ s1 o1 s2 n s3 t1 s4 off s5 o2 s6,
        pchar '[' s = some ('[', s1) ∧ popt separator s1 = some (o1, s2) ∧
        Vector3.parse s2 = some (n, s3) ∧ separator s3 = some (t1, s4) ∧
        pfloat s4 = some (off, s5) ∧ popt separator s5 = some (o2, s6) ∧
        pchar ']' s6 = some (']', rest) ∧ ax = ⟨n, off⟩ := by
  unfold Axis.parse sep_terminated
  rw [pdelimited_eq_some]
  constructor
  · rintro ⟨a, s1', s2', c, hL, hM, hR⟩
    rw [ppair_eq_some] at hL
    obtain ⟨sK, hBr, hOs⟩ := hL
    rw [pmap_eq_some] at hM
    obtain ⟨⟨n, off⟩, hM, hax⟩ := hM
    rw [ppair_eq_some] at hM
    obtain ⟨sP, hNF, hF⟩ := hM
    rw [pterminated_eq_some] at hNF
    obtain ⟨sQ, t1, hN, hSep⟩ := hNF
    rw [ppair_eq_some] at hR
    obtain ⟨sR, hOs2, hBr2⟩ := hR
    obtain ⟨hc1, -⟩ := (pchar_eq_some _ _ _ _).mp hBr
    rw [hc1] at hBr
    obtain ⟨hc2, -⟩ := (pchar_eq_some _ _ _ _).mp hBr2
    rw [hc2] at hBr2
    exact ⟨sK, a.2, s1', n, sQ, t1, sP, off, s2', c.1, sR,
      hBr, hOs, hN, hSep, hF, hOs2, hBr2, hax⟩
  · rintro ⟨s1, o1, s2, n, s3, t1, s4, off, s5, o2, s6,
      h1, h2, h3, h4, h5, h6, h7, h8⟩
    refine ⟨('[', o1), s2, s5, (o2, ']'), ?_, ?_, ?_⟩
    · rw [ppair_eq_some]
      exact ⟨s1, h1, h2⟩
    · rw [pmap_eq_some]
      refine ⟨(n, off), ?_, h8⟩
      rw [ppair_eq_some]
      refine ⟨s4, ?_, h5⟩
      rw [pterminated_eq_some]
      exact ⟨s3, t1, h3, h4⟩
    · rw [ppair_eq_some]
      exact ⟨s6, h6, h7⟩

theorem Axes_parse_eq_some (s : List Char) (ax : Axes) (rest : List Char) :
    Axes.parse s = some (ax, rest) ↔
      ∃ u s1 o1 s2 v,
        Axis.parse s = some (u, s1) ∧ popt separator s1 = some (o1, s2) ∧
        Axis.parse s2 = some (v, rest) ∧ ax = ⟨u, v⟩ := by
  unfold Axes.parse maybe_sep_terminated
  rw [pmap_eq_some]
  constructor
  · rintro ⟨⟨u, v⟩, h1, h2⟩
    rw [ppair_eq_some] at h1
    obtain ⟨sM, hA, hB⟩ := h1
    rw [pterminated_eq_some] at hA
    obtain ⟨sA, o1, hu, hop⟩ := hA
    exact ⟨u, sA, o1, sM, v, hu, hop, hB, h2⟩
  · rintro ⟨u, s1, o1, s2, v, h1, h2, h3, h4⟩
    refine ⟨(u, v), ?_, h4⟩
    rw [ppair_eq_some]
    refine ⟨s2, ?_, h3⟩
    rw [pterminated_eq_some]
    exact ⟨s1, o1, h1, h2⟩

theorem TextureAlignment_parse_eq_some (s : List Char) (al : TextureAlignment)
    (rest : List Char) :
    TextureAlignment.parse s = some (al, rest) ↔
      ∃ ax s1 o1 s2 rot s3 t1 s4 sc,
        Axes.parse s = some (ax, s1) ∧ popt separator s1 = some (o1, s2) ∧
        pfloat s2 = some (rot, s3) ∧ separator s3 = some (t1, s4) ∧
        Scale.parse s4 = some (sc, rest) ∧ al = ⟨ax, rot, sc⟩ := by
  unfold TextureAlignment.parse maybe_sep_terminated sep_terminated
  rw [pmap_eq_some]
  constructor
  · rintro ⟨⟨ax, rot, sc⟩, h1, h2⟩
    rw [ppair_eq_some] at h1
    obtain ⟨sM, hA, hB⟩ := h1
    rw [pterminated_eq_some] at hA
    obtain ⟨sA, o1, hax, hop⟩ := hA
    rw [ppair_eq_some] at hB
    obtain ⟨sN, hC, hD⟩ := hB
    rw [pterminated_eq_some] at hC
    obtain ⟨sB, t1, hrot, hsep⟩ := hC
    exact ⟨ax, sA, o1, sM, rot, sB, t1, sN, sc, hax, hop, hrot, hsep, hD, h2⟩
  · rintro ⟨ax, s1, o1, s2, rot, s3, t1, s4, sc, h1, h2, h3, h4, h5, h6⟩
    refine ⟨(ax, (rot, sc)), ?_, h6⟩
    rw [ppair_eq_some]
    refine ⟨s2, ?_, ?_⟩
    · rw [pterminated_eq_some]
      exact ⟨s1, o1, h1, h2⟩
    · rw [ppair_eq_some]
      refine ⟨s4, ?_, h5⟩
      rw [pterminated_eq_some]
      exact ⟨s3, t1, h3, h4⟩

theorem Texture_parse_eq_some (s : List Char) (t : Texture) (rest : List Char) :
    Texture.parse s = some (t, rest) ↔
      ∃ name s1 t1 s2 al,
        ptake_till Char.isWhitespace s = some (name, s1) ∧ separator s1 = some (t1, s2) ∧
        TextureAlignment.parse s2 = some (al, rest) ∧ t = ⟨String.mk name, al⟩ := by
  unfold Texture.parse sep_terminated
  rw [pmap_eq_some]
  constructor
  · rintro ⟨⟨name, al⟩, h1, h2⟩
    rw [ppair_eq_some] at h1
    obtain ⟨sM, hA, hB⟩ := h1
    rw [pterminated_eq_some] at hA
    obtain ⟨sA, t1, hname, hsep⟩ := hA
    exact ⟨name, sA, t1, sM, al, hname, hsep, hB, h2⟩
  · rintro ⟨name, s1, t1, s2, al, h1, h2, h3, h4⟩
    refine ⟨(name, al), ?_, h4⟩
    rw [ppair_eq_some]
    refine ⟨s2, ?_, h3⟩
    rw [pterminated_eq_some]
    exact ⟨s1, t1, h1, h2⟩

theorem point_group_eq_some (s : List Char) (v : Vector3) (rest : List Char) :
    point_group s = some (v, rest) ↔
      ∃ s1 o1 s2 s3 o2 s4 s5 o3,
        pchar '(' s = some ('(', s1) ∧ popt separator s1 = some (o1, s2) ∧
        Vector3.parse s2 = some (v, s3) ∧ popt separator s3 = some (o2, s4) ∧
        pchar ')' s4 = some (')', s5) ∧ popt separator s5 = some (o3, rest) := by
  unfold point_group maybe_sep_terminated
  rw [pterminated_eq_some]
  constructor
  · rintro ⟨sM, o3, hD, hO3⟩
    rw [pdelimited_eq_some] at hD
    obtain ⟨a, sA, sB, c, hL, hV, hR⟩ := hD
    rw [ppair_eq_some] at hL
    obtain ⟨sK, hBr, hO1⟩ := hL
    rw [ppair_eq_some] at hR
    obtain ⟨sR, hO2, hBr2⟩ := hR
    obtain ⟨hc1, -⟩ := (pchar_eq_some _ _ _ _).mp hBr
    rw [hc1] at hBr
    obtain ⟨hc2, -⟩ := (pchar_eq_some _ _ _ _).mp hBr2
    rw [hc2] at hBr2
    exact ⟨sK, a.2, sA, sB, c.1, sR, sM, o3, hBr, hO1, hV, hO2, hBr2, hO3⟩
  · rintro ⟨s1, o1, s2, s3, o2, s4, s5, o3, h1, h2, h3, h4, h5, h6⟩
    refine ⟨s5, o3, ?_, h6⟩
    rw [pdelimited_eq_some]
    refine ⟨('(', o1), s2, s3, (o2, ')'), ?_, h3, ?_⟩
    · rw [ppair_eq_some]
      exact ⟨s1, h1, h2⟩
    · rw [ppair_eq_some]
      exact ⟨s4, h4, h5⟩

theorem Plane_parse_eq_some (s : List Char) (pl : Plane) (rest : List Char) :
    Plane.parse s = some (pl, rest) ↔
      ∃ p0 s1 p1 s2 p2 s3 tex,
        point_group s = some (p0, s1) ∧ point_group s1 = some (p1, s2) ∧
        point_group s2 = some (p2, s3) ∧ Texture.parse s3 = some (tex, rest) ∧
        pl = ⟨(p0, p1, p2), tex⟩ := by
  unfold Plane.parse
  rw [pmap_eq_some]
  constructor
  · rintro ⟨a, h1, h2⟩
    rw [ppair_eq_some] at h1
    obtain ⟨sM, hA, hB⟩ := h1
    rw [many_fixed3_eq_some] at hA
    obtain ⟨p0, s1, p1, s2, p2, hp0, hp1, hp2, ht⟩ := hA
    refine ⟨p0, s1, p1, s2, p2, sM, a.2, hp0, hp1, hp2, hB, ?_⟩
    rw [← ht]
    exact h2
  · rintro ⟨p0, s1, p1, s2, p2, s3, tex, h1, h2, h3, h4, h5⟩
    refine ⟨((p0, p1, p2), tex), ?_, h5⟩
    rw [ppair_eq_some]
    refine ⟨s3, ?_, h4⟩
    rw [many_fixed3_eq_some]
    exact ⟨p0, s1, p1, s2, p2, h1, h2, h3, rfl⟩

end formats

end VM

namespace VM

namespace formats

set_option maxRecDepth 10000 in
/-- C5: a brush plane line parses in Valve-220 format. `Plane.parse` succeeds
exactly on three parenthesized point groups followed by a texture, storing the
three points and the texture; a point group is a parenthesized `Vector3`;
a `Vector3` is exactly three floats; the texture is a name taken up to the next
whitespace followed by a `TextureAlignment`; a `TextureAlignment` is the two
u/v `Axis` blocks, a rotation float and a two-float scale; an `Axis` block is
bracketed and holds a 3-component axis normal (`Vector3`) and a scalar offset;
and the crate's documented example line
`( 816 -796 356 ) ( 816 -804 356 ) ( 808 -804 356 ) stone1_3 [ 0 -1 0 -20 ] [ 1 0 0 16 ] -0 1 1`
parses to exactly the expected `Plane`, consuming the whole line. -/
theorem plane_line_valve220 :
    (∀ s pl rest, Plane.parse s = some (pl, rest) ↔
       ∃ p0 s1 p1 s2 p2 s3 tex,
         point_group s = some (p0, s1) ∧ point_group s1 = some (p1, s2) ∧
         point_group s2 = some (p2, s3) ∧ Texture.parse s3 = some (tex, rest) ∧
         pl = ⟨(p0, p1, p2), tex⟩) ∧
    (∀ s v rest, point_group s = some (v, rest) ↔
       ∃ s1 o1 s2 s3 o2 s4 s5 o3,
         pchar '(' s = some ('(', s1) ∧ popt separator s1 = some (o1, s2) ∧
         Vector3.parse s2 = some (v, s3) ∧ popt separator s3 = some (o2, s4) ∧
         pchar ')' s4 = some (')', s5) ∧ popt separator s5 = some (o3, rest)) ∧
    (∀ s v rest, Vector3.parse s = some (v, rest) ↔
       ∃ x s1 t1 s2 y s3 t2 s4 z,
         pfloat s = some (x, s1) ∧ separator s1 = some (t1, s2) ∧
         pfloat s2 = some (y, s3) ∧ separator s3 = some (t2, s4) ∧
         pfloat s4 = some (z, rest) ∧ v = ⟨x, y, z⟩) ∧
    (∀ s t rest, Texture.parse s = some (t, rest) ↔
       ∃ name s1 t1 s2 al,
         ptake_till Char.isWhitespace s = some (name, s1) ∧ separator s1 = some (t1, s2) ∧
         TextureAlignment.parse s2 = some (al, rest) ∧ t = ⟨String.mk name, al⟩) ∧
    (∀ s al rest, TextureAlignment.parse s = some (al, rest) ↔
       ∃ ax s1 o1 s2 rot s3 t1 s4 sc,
         Axes.parse s = some (ax, s1) ∧ popt separator s1 = some (o1, s2) ∧
         pfloat s2 = some (rot, s3) ∧ separator s3 = some (t1, s4) ∧
         Scale.parse s4 = some (sc, rest) ∧ al = ⟨ax, rot, sc⟩) ∧
    (∀ s ax rest, Axes.parse s = some (ax, rest) ↔
       ∃ u s1 o1 s2 v,
         Axis.parse s = some (u, s1) ∧ popt separator s1 = some (o1, s2) ∧
         Axis.parse s2 = some (v, rest) ∧ ax = ⟨u, v⟩) ∧
    (∀ s ax rest, Axis.parse s = some (ax, rest) ↔
       ∃ s1 o1 s2 n s3 t1 s4 off s5 o2 s6,
         pchar '[' s = some ('[', s1) ∧ popt separator s1 = some (o1, s2) ∧
         Vector3.parse s2 = some (n, s3) ∧ separator s3 = some (t1, s4) ∧
         pfloat s4 = some (off, s5) ∧ popt separator s5 = some (o2, s6) ∧
         pchar ']' s6 = some (']', rest) ∧ ax = ⟨n, off⟩) ∧
    (∀ s sc rest, Scale.parse s = some (sc, rest) ↔
       ∃ u s1 t1 s2 v,
         pfloat s = some (u, s1) ∧ separator s1 = some (t1, s2) ∧
         pfloat s2 = some (v, rest) ∧ sc = ⟨u, v⟩) ∧
    Plane.parse exLine = some (exPlane, []) := by
  refine ⟨Plane_parse_eq_some, point_group_eq_some, Vector3_parse_eq_some,
    Texture_parse_eq_some, TextureAlignment_parse_eq_some, Axes_parse_eq_some,
    Axis_parse_eq_some, Scale_parse_eq_some, ?_⟩
  with_unfolding_all rfl

end formats

end VM
